import Mathlib

/-!
AdaptiveTrackerCSRTV2: supervisory reinitialization layer

A shallow embedding of `AdaptiveTrackerCSRTV2.hpp`.

Modelling conventions.

* `double` and `float` values are exact rationals and arithmetic on them is
  exact. A `float` literal of the source stands for its binary32 value (`0.02f`
  is `5368709 / 2^28`, not `1/50`); a comparison between a `double` and a
  `float` is then the comparison of the two rationals. The one place where the
  source can divide by an exact zero (`shouldReinitialize`) follows IEEE-754:
  `0 / 0` is a NaN, a non-zero value over zero is an infinity, and every
  ordered comparison with a NaN is false.
* `int` counters are unbounded integers.
* `std::deque` is a list: `push_back` appends at the end, `pop_front` drops the
  head.
* The external `cv::tracking::TrackerCSRTV2` is not part of the wrapper. Its
  answers (`create`, `init`, `update` and the quality getters) are inputs of
  the operations, so every theorem holds for every behaviour of the tracker.
  Each operation also returns the list of state-changing calls it made to the
  tracker library, in order.
-/

namespace AdaptiveTracker

/-! ## Geometry -/

/-- Type `cv::Size2d`. -/
structure Size2d where
  width : ℚ
  height : ℚ
deriving DecidableEq

/-- Method `cv::Size2d::area`. -/
def Size2d.area (s : Size2d) : ℚ := s.width * s.height

/-- Type `cv::Rect2d`. -/
structure Rect2d where
  x : ℚ
  y : ℚ
  width : ℚ
  height : ℚ
deriving DecidableEq

/-- Method `cv::Rect2d::area`. -/
def Rect2d.area (r : Rect2d) : ℚ := r.width * r.height

/-- Type `cv::Rect` (integer rectangle). -/
structure Rect where
  x : Int
  y : Int
  width : Int
  height : Int
deriving DecidableEq

/-- Conversion `static_cast<int>` of a double: truncation toward zero. -/
def truncToInt (q : ℚ) : Int := if 0 ≤ q then ⌊q⌋ else ⌈q⌉

/-- The integer rectangle built from a double rectangle in `init` and
`reinitialize`. -/
def Rect2d.toRect (b : Rect2d) : Rect :=
  { x := truncToInt b.x, y := truncToInt b.y,
    width := truncToInt b.width, height := truncToInt b.height }

/-- Constructor `cv::Rect2d(rect.x, rect.y, rect.width, rect.height)`. -/
def Rect.toRect2d (r : Rect) : Rect2d :=
  { x := r.x, y := r.y, width := r.width, height := r.height }

/-- Type `cv::Mat`, reduced to its pixel data; `empty` is the only query the
wrapper makes. -/
structure Mat where
  data : List Nat
deriving DecidableEq

/-- Method `cv::Mat::empty`. -/
def Mat.empty (m : Mat) : Bool := m.data.isEmpty

/-! ## Parameters -/

/-- The fields of `cv::tracking::TrackerCSRT::Params` that the wrapper's
constructor assigns. -/
structure CsrtParams where
  use_hog : Bool
  use_color_names : Bool
  use_gray : Bool
  use_rgb : Bool
  use_channel_weights : Bool
  use_segmentation : Bool
  template_size : ℚ
  gsl_sigma : ℚ
  hog_orientations : ℚ
  hog_clip : ℚ
  padding : ℚ
  filter_lr : ℚ
  weights_lr : ℚ
  num_hog_channels_used : Int
  admm_iterations : Int
  histogram_bins : Int
  histogram_lr : ℚ
  background_ratio : Int
  number_of_scales : Int
  scale_sigma_factor : ℚ
  scale_model_max_area : ℚ
  scale_lr : ℚ
  scale_step : ℚ
  psr_threshold : ℚ
deriving DecidableEq

/-- Struct `AdaptiveParams`. -/
structure AdaptiveParams where
  csrt_params : CsrtParams
  size_change_threshold : ℚ
  psr_reinit_threshold : ℚ
  consecutive_low_psr_limit : Int
  reinit_cooldown_frames : Int
  enable_size_adaptation : Bool
  enable_psr_monitoring : Bool
  auto_adjust_template_size : Bool
  auto_adjust_psr_threshold : Bool
deriving DecidableEq

/-- The default constructor `AdaptiveParams()`. Every `float` member holds the
binary32 value of its literal: `0.3f = 5033165 / 2^24`, `0.02f = 5368709 / 2^28`,
`0.2f = 13421773 / 2^26`, `0.04f = 5368709 / 2^27`, `0.025f = 13421773 / 2^29`,
`1.020f = 2139095 / 2^21`, `0.035f = 9395241 / 2^28`; the others are exact. -/
def AdaptiveParams.default : AdaptiveParams :=
  { csrt_params :=
      { use_hog := true, use_color_names := true, use_gray := true, use_rgb := false,
        use_channel_weights := true, use_segmentation := true,
        template_size := 200, gsl_sigma := 1, hog_orientations := 9,
        hog_clip := 13421773 / 67108864,
        padding := 3, filter_lr := 5368709 / 268435456, weights_lr := 5368709 / 268435456,
        num_hog_channels_used := 18, admm_iterations := 4, histogram_bins := 16,
        histogram_lr := 5368709 / 134217728, background_ratio := 2, number_of_scales := 33,
        scale_sigma_factor := 1 / 4, scale_model_max_area := 512,
        scale_lr := 13421773 / 536870912,
        scale_step := 2139095 / 2097152, psr_threshold := 9395241 / 268435456 },
    size_change_threshold := 5033165 / 16777216,
    psr_reinit_threshold := 5368709 / 268435456,
    consecutive_low_psr_limit := 5,
    reinit_cooldown_frames := 10,
    enable_size_adaptation := true,
    enable_psr_monitoring := true,
    auto_adjust_template_size := true,
    auto_adjust_psr_threshold := true }

/-! ## Tracking state and its history buffer -/

/-- Constant `TrackingState::HISTORY_SIZE`. -/
def HISTORY_SIZE : Nat := 10

/-- Struct `TrackingState`. -/
structure TrackingState where
  is_initialized : Bool
  is_tracking : Bool
  current_bbox : Rect2d
  initial_bbox : Rect2d
  current_psr : ℚ
  tracking_score : ℚ
  frame_count : Int
  consecutive_low_psr_count : Int
  frames_since_reinit : Int
  psr_history : List ℚ
  size_history : List Size2d
deriving DecidableEq

/-- A default-constructed `TrackingState`. -/
def TrackingState.fresh : TrackingState :=
  { is_initialized := false, is_tracking := false,
    current_bbox := ⟨0, 0, 0, 0⟩, initial_bbox := ⟨0, 0, 0, 0⟩,
    current_psr := 0, tracking_score := 0,
    frame_count := 0, consecutive_low_psr_count := 0, frames_since_reinit := 0,
    psr_history := [], size_history := [] }

/-- One `push_back` followed by the guarded `pop_front` of `updateHistory`. -/
def pushBounded {α : Type} (xs : List α) (x : α) : List α :=
  let ys := xs ++ [x]
  if ys.length > HISTORY_SIZE then ys.tail else ys

/-- Method `TrackingState::updateHistory`. -/
def TrackingState.updateHistory (s : TrackingState) (psr : ℚ) (size : Size2d) :
    TrackingState :=
  { s with psr_history := pushBounded s.psr_history psr,
           size_history := pushBounded s.size_history size }

/-- Method `TrackingState::getAveragePSR`: the accumulation loop, then one
division by the number of entries. -/
def TrackingState.getAveragePSR (s : TrackingState) : ℚ :=
  if s.psr_history.isEmpty then 0
  else
    let sum := s.psr_history.foldl (fun acc psr => acc + psr) 0
    sum / s.psr_history.length

/-- Method `TrackingState::getAverageSize`. -/
def TrackingState.getAverageSize (s : TrackingState) : Size2d :=
  if s.size_history.isEmpty then ⟨0, 0⟩
  else
    let wh := s.size_history.foldl
      (fun (acc : ℚ × ℚ) size => (acc.1 + size.width, acc.2 + size.height)) (0, 0)
    ⟨wh.1 / s.size_history.length, wh.2 / s.size_history.length⟩

/-! ## Size configuration heuristic -/

/-- Method `adaptTemplateSize`, as a function on the stored parameters. -/
def adaptTemplateSize (params : AdaptiveParams) (bbox : Rect2d) : AdaptiveParams :=
  let target_area := bbox.width * bbox.height
  let p1 : CsrtParams :=
    if target_area < 10000 then { params.csrt_params with template_size := 150 }
    else if target_area < 40000 then { params.csrt_params with template_size := 200 }
    else { params.csrt_params with template_size := 250 }
  let p2 : CsrtParams :=
    if target_area > 50000 then { p1 with number_of_scales := 25 }
    else { p1 with number_of_scales := 33 }
  { params with csrt_params := p2 }

/-! ## Reinitialization policy -/

/-- What a double division yields, as far as a later comparison can tell. -/
inductive DoubleQuot where
  | finite (q : ℚ)
  | posInf
  | negInf
  | nan
deriving DecidableEq

/-- Division `num / den` of doubles. `denNegZero` tells the sign of a zero
denominator (true for `-0.0`); it is ignored when `den` is not zero. -/
def divDouble (num den : ℚ) (denNegZero : Bool) : DoubleQuot :=
  if den = 0 then
    if num = 0 then DoubleQuot.nan
    else if (decide (0 < num)) = denNegZero then DoubleQuot.negInf
    else DoubleQuot.posInf
  else DoubleQuot.finite (num / den)

/-- Comparison `quot > threshold` against a finite threshold. -/
def DoubleQuot.gt (d : DoubleQuot) (threshold : ℚ) : Bool :=
  match d with
  | DoubleQuot.finite q => decide (q > threshold)
  | DoubleQuot.posInf => true
  | DoubleQuot.negInf => false
  | DoubleQuot.nan => false

/-- Sign of a zero `avg_size.area()`. The components of an average size are
sums started at `+0.0` and divided by a positive count, so a zero component is
`+0.0`; the product is `-0.0` exactly when the other component is negative. -/
def avgAreaNegZero (avg : Size2d) : Bool :=
  (decide (avg.width = 0) && decide (avg.height < 0)) ||
  (decide (avg.height = 0) && decide (avg.width < 0))

/-- Method `shouldReinitialize`. -/
def shouldReinitialize (params : AdaptiveParams) (state : TrackingState)
    (current_bbox : Rect2d) : Bool :=
  if state.frames_since_reinit < params.reinit_cooldown_frames then false
  else if params.enable_psr_monitoring &&
      decide (state.consecutive_low_psr_count ≥ params.consecutive_low_psr_limit) then true
  else if params.enable_size_adaptation && !state.size_history.isEmpty then
    let avg_size := state.getAverageSize
    let size_change :=
      divDouble |current_bbox.area - avg_size.area| avg_size.area (avgAreaNegZero avg_size)
    if size_change.gt params.size_change_threshold then true else false
  else false

/-! ## The external tracker, as the wrapper sees it -/

/-- Type `cv::tracking::TrackerCSRTV2::TrackingStats`. Its declaration is in the
tracker library; the fields are those the specification lists. -/
structure TrackingStats where
  current_psr : ℚ
  avg_psr : ℚ
  min_psr : ℚ
  max_psr : ℚ
  successful_frames : Int
  total_frames : Int
  success_rate : ℚ
deriving DecidableEq

/-- Modelled from the spec: the default-constructed `TrackingStats()`, whose
constructor is in the tracker library; the specification calls it the empty
default, taken here as all fields zero. -/
def TrackingStats.empty : TrackingStats := ⟨0, 0, 0, 0, 0, 0, 0⟩

/-- A live `cv::tracking::TrackerCSRTV2` object: what its getters return. -/
structure TrackerCSRTV2 where
  rawPSR : ℚ
  trackingScore : ℚ
  targetLost : Bool
  stats : TrackingStats
deriving DecidableEq

/-- Answer of the library to `TrackerCSRTV2::create` followed by `init` on the
new object. `tracker = none` is a null pointer from `create`; otherwise it is
the object as it stands after its `init` call, which returned `initOk`. -/
structure CreateReply where
  tracker : Option TrackerCSRTV2
  initOk : Bool
deriving DecidableEq

/-- Answer of the library to `tracker_->update(image, rect)`: the returned
flag, the rectangle written to `rect`, and the object after the call. -/
structure UpdateReply where
  success : Bool
  rect : Rect
  tracker : TrackerCSRTV2
deriving DecidableEq

/-- State-changing calls made to the tracker library. -/
inductive TrackerCall where
  | create (params : CsrtParams)
  | init (image : Mat) (rect : Rect)
  | update (image : Mat)
deriving DecidableEq

/-- The private members of `AdaptiveTrackerCSRTV2`. -/
structure Controller where
  tracker_ : Option TrackerCSRTV2
  params_ : AdaptiveParams
  state_ : TrackingState
  last_frame_ : Mat
deriving DecidableEq

/-- The constructor `AdaptiveTrackerCSRTV2(params)`. -/
def Controller.new (params : AdaptiveParams) : Controller :=
  { tracker_ := none, params_ := params, state_ := TrackingState.fresh,
    last_frame_ := ⟨[]⟩ }

/-- Result of an operation returning `bool`. -/
structure OpResult where
  ok : Bool
  ctl : Controller
  calls : List TrackerCall
deriving DecidableEq

/-- Result of `update`: also the caller's `bbox` variable after the call. -/
structure UpdateResult where
  ok : Bool
  bbox : Rect2d
  ctl : Controller
  calls : List TrackerCall
deriving DecidableEq

/-- Method `init`. -/
def init (c : Controller) (image : Mat) (bbox : Rect2d) (reply : CreateReply) : OpResult :=
  let params := if c.params_.auto_adjust_template_size
    then adaptTemplateSize c.params_ bbox else c.params_
  match reply.tracker with
  | none =>
    { ok := false, ctl := { c with params_ := params, tracker_ := none },
      calls := [TrackerCall.create params.csrt_params] }
  | some t =>
    let rect := bbox.toRect
    let calls := [TrackerCall.create params.csrt_params, TrackerCall.init image rect]
    if reply.initOk then
      { ok := true,
        ctl := { tracker_ := some t, params_ := params,
                 state_ := { c.state_ with
                   is_initialized := true, is_tracking := true,
                   current_bbox := bbox, initial_bbox := bbox,
                   frame_count := 0, consecutive_low_psr_count := 0,
                   frames_since_reinit := 0 },
                 last_frame_ := image },
        calls := calls }
    else
      { ok := false, ctl := { c with params_ := params, tracker_ := some t },
        calls := calls }

/-- Method `reinitialize`. -/
def reinitialize (c : Controller) (image : Mat) (bbox : Rect2d) (reply : CreateReply) :
    OpResult :=
  let params := if c.params_.auto_adjust_template_size
    then adaptTemplateSize c.params_ bbox else c.params_
  match reply.tracker with
  | none =>
    { ok := false, ctl := { c with params_ := params, tracker_ := none },
      calls := [TrackerCall.create params.csrt_params] }
  | some t =>
    let rect := bbox.toRect
    let calls := [TrackerCall.create params.csrt_params, TrackerCall.init image rect]
    if reply.initOk then
      { ok := true,
        ctl := { c with
                 tracker_ := some t, params_ := params,
                 state_ := { c.state_ with
                   consecutive_low_psr_count := 0, frames_since_reinit := 0 } },
        calls := calls }
    else
      { ok := false, ctl := { c with params_ := params, tracker_ := some t },
        calls := calls }

/-- Method `update`. `upd` answers the tracker's `update`; `reply` answers the
rebuild, and is consulted only when the policy asks for one. -/
def update (c : Controller) (image : Mat) (bbox : Rect2d) (upd : UpdateReply)
    (reply : CreateReply) : UpdateResult :=
  if !c.state_.is_initialized || c.tracker_.isNone then
    { ok := false, bbox := bbox, ctl := c, calls := [] }
  else
    let s1 : TrackingState := { c.state_ with
      frame_count := c.state_.frame_count + 1,
      frames_since_reinit := c.state_.frames_since_reinit + 1 }
    if upd.success then
      let bbox1 := upd.rect.toRect2d
      let s2 : TrackingState := { s1 with
        current_bbox := bbox1,
        current_psr := upd.tracker.rawPSR,
        tracking_score := upd.tracker.trackingScore }
      let s3 := s2.updateHistory s2.current_psr ⟨bbox1.width, bbox1.height⟩
      if shouldReinitialize c.params_ s3 bbox1 then
        let r := reinitialize { c with tracker_ := some upd.tracker, state_ := s3 }
          image bbox1 reply
        { ok := r.ok, bbox := bbox1, ctl := r.ctl,
          calls := TrackerCall.update image :: r.calls }
      else
        let s4 : TrackingState :=
          if s3.current_psr < c.params_.psr_reinit_threshold then
            { s3 with consecutive_low_psr_count := s3.consecutive_low_psr_count + 1 }
          else { s3 with consecutive_low_psr_count := 0 }
        { ok := true, bbox := bbox1,
          ctl := { c with tracker_ := some upd.tracker, state_ := s4, last_frame_ := image },
          calls := [TrackerCall.update image] }
    else
      { ok := false, bbox := bbox,
        ctl := { c with tracker_ := some upd.tracker, state_ := s1, last_frame_ := image },
        calls := [TrackerCall.update image] }

/-- The test of `updateParams` on the structurally significant fields. The
literal `1e-6` is a `double`, a little below `10^-6`; no binary32 value lies
between the two, so a `float` difference exceeds the one exactly when it
exceeds the other, and the rational `10^-6` is used. -/
def needReinit (new_params old_params : AdaptiveParams) : Bool :=
  decide (|new_params.csrt_params.template_size - old_params.csrt_params.template_size|
      > 1 / 1000000) ||
  decide (new_params.csrt_params.number_of_scales ≠ old_params.csrt_params.number_of_scales) ||
  decide (|new_params.csrt_params.scale_model_max_area
      - old_params.csrt_params.scale_model_max_area| > 1 / 1000000)

/-- Method `updateParams`. -/
def updateParams (c : Controller) (new_params : AdaptiveParams) (reply : CreateReply) :
    OpResult :=
  let need_reinit := needReinit new_params c.params_
  let c1 : Controller := { c with params_ := new_params }
  if need_reinit && c1.state_.is_tracking && !c1.last_frame_.empty then
    reinitialize c1 c1.last_frame_ c1.state_.current_bbox reply
  else
    { ok := true, ctl := c1, calls := [] }

/-- Method `getState`. -/
def getState (c : Controller) : TrackingState := c.state_

/-- Method `getTrackingScore`. -/
def getTrackingScore (c : Controller) : ℚ :=
  match c.tracker_ with
  | some t => t.trackingScore
  | none => 0

/-- Method `getRawPSR`. -/
def getRawPSR (c : Controller) : ℚ :=
  match c.tracker_ with
  | some t => t.rawPSR
  | none => 0

/-- Method `isTargetLost`. -/
def isTargetLost (c : Controller) : Bool :=
  match c.tracker_ with
  | some t => t.targetLost
  | none => true

/-- Method `getTrackingStats`. -/
def getTrackingStats (c : Controller) : TrackingStats :=
  match c.tracker_ with
  | some t => t.stats
  | none => TrackingStats.empty

/-- Successive `update` calls, each on the controller the previous call left;
the results are listed in call order. -/
def runUpdates (c : Controller) (bbox : Rect2d) :
    List (Mat × UpdateReply × CreateReply) → List UpdateResult
  | [] => []
  | (image, upd, reply) :: rest =>
    let r := update c image bbox upd reply
    r :: runUpdates r.ctl r.bbox rest

/-- An operation rebuilt the tracker when it called `create`. -/
def rebuilt (calls : List TrackerCall) : Bool :=
  calls.any fun call =>
    match call with
    | TrackerCall.create _ => true
    | _ => false

/-- Every observation of a list recorded in turn with `updateHistory`. -/
def recordAll (s : TrackingState) (obs : List (ℚ × Size2d)) : TrackingState :=
  obs.foldl (fun st o => st.updateHistory o.1 o.2) s

/-! ## Auxiliary definitions for the statements -/

/-- The tracking state of `update` right after a successful tracker update has
been recorded (counters advanced, box and quality stored, history extended) and
before the policy is consulted. -/
def trackedState (c : Controller) (upd : UpdateReply) : TrackingState :=
  TrackingState.updateHistory
    { c.state_ with
      frame_count := c.state_.frame_count + 1,
      frames_since_reinit := c.state_.frames_since_reinit + 1,
      current_bbox := upd.rect.toRect2d,
      current_psr := upd.tracker.rawPSR,
      tracking_score := upd.tracker.trackingScore }
    upd.tracker.rawPSR ⟨upd.rect.toRect2d.width, upd.rect.toRect2d.height⟩

/-- The standing assumptions of the low-quality scenario on a controller: it is
active with a tracker, the cooldown has elapsed, PSR monitoring is on with
limit 5, and `floor` is the value its `psr_reinit_threshold` holds (for the
default parameters the binary32 value of `0.02f`). -/
def LowQualityReady (floor : ℚ) (c : Controller) : Prop :=
  c.state_.is_initialized = true ∧ c.tracker_.isSome = true ∧
  c.params_.reinit_cooldown_frames ≤ c.state_.frames_since_reinit ∧
  c.params_.enable_psr_monitoring = true ∧
  c.params_.consecutive_low_psr_limit = 5 ∧
  c.params_.psr_reinit_threshold = floor

/-- A successful frame with raw PSR below `floor` whose rebuild, if the policy
asks for one, succeeds. -/
def LowQualityInput (floor : ℚ) (i : Mat × UpdateReply × CreateReply) : Prop :=
  i.2.1.success = true ∧ i.2.1.tracker.rawPSR < floor ∧
  i.2.2.tracker.isSome = true ∧ i.2.2.initOk = true

/-- One call of a public operation, with the answers of the tracker library. -/
inductive Op where
  | init (image : Mat) (bbox : Rect2d) (reply : CreateReply)
  | update (image : Mat) (bbox : Rect2d) (upd : UpdateReply) (reply : CreateReply)
  | updateParams (new_params : AdaptiveParams) (reply : CreateReply)
deriving DecidableEq

/-- Whether the call is a call of `init`. -/
def Op.isInit : Op → Bool
  | Op.init _ _ _ => true
  | _ => false

/-- The outcome of one call on a controller. -/
def runOp (c : Controller) : Op → OpResult
  | Op.init image bbox reply => init c image bbox reply
  | Op.update image bbox upd reply =>
    { ok := (update c image bbox upd reply).ok,
      ctl := (update c image bbox upd reply).ctl,
      calls := (update c image bbox upd reply).calls }
  | Op.updateParams new_params reply => updateParams c new_params reply

/-- The controller after a sequence of calls. -/
def afterOps (c : Controller) : List Op → Controller
  | [] => c
  | op :: rest => afterOps (runOp c op).ctl rest

/-- No `init` call of the sequence returns true. -/
def noInitSucceeds (c : Controller) : List Op → Bool
  | [] => true
  | op :: rest => !(op.isInit && (runOp c op).ok) && noInitSucceeds (runOp c op).ctl rest

/-- A successful frame reporting a box of width `w` and height `h`. -/
def ConstantSizeInput (w h : Int) (i : Mat × UpdateReply × CreateReply) : Prop :=
  i.2.1.success = true ∧ i.2.1.rect.width = w ∧ i.2.1.rect.height = h

/-- The standing assumptions of the constant-size scenario on a controller: it
is initialized with a tracker, PSR monitoring is off, the size-change threshold
is at least 0.30, the size history is within its capacity and consists of some
older sizes `old` followed by `m` copies of `w x h`; either there are no older
sizes, or the cooldown is at least the capacity and no more frames have passed
since the last `init` or rebuild than copies were recorded. -/
def ConstantSizeReady (w h : Int) (c : Controller) : Prop :=
  c.state_.is_initialized = true ∧ c.tracker_.isSome = true ∧
  c.params_.enable_psr_monitoring = false ∧
  3 / 10 ≤ c.params_.size_change_threshold ∧
  c.state_.size_history.length ≤ HISTORY_SIZE ∧
  ∃ (old : List Size2d) (m : Nat),
    c.state_.size_history = old ++ List.replicate m ⟨w, h⟩ ∧
    (old = [] ∨
      (c.state_.frames_since_reinit ≤ m ∧
        (HISTORY_SIZE : Int) ≤ c.params_.reinit_cooldown_frames))

/-- The ordering of the three counters and the shape of the two histories. -/
def CounterInvariant (s : TrackingState) : Prop :=
  0 ≤ s.consecutive_low_psr_count ∧
  s.consecutive_low_psr_count ≤ s.frames_since_reinit ∧
  s.frames_since_reinit ≤ s.frame_count ∧
  s.psr_history.length = s.size_history.length ∧
  s.psr_history.length ≤ HISTORY_SIZE

/-- Whether the frame passed by a call is not empty (`updateParams` passes
none). -/
def Op.frameValid : Op → Bool
  | Op.init image _ _ => !image.empty
  | Op.update image _ _ _ => !image.empty
  | Op.updateParams _ _ => true

/-! ## Concrete inputs -/

/-- A tracking state past the default cooldown whose only recorded size is
`10 x 10` and whose low-quality counter is `n`. -/
def stateAfterCooldown (n : Int) : TrackingState :=
  { TrackingState.fresh with
    is_initialized := true, is_tracking := true,
    current_bbox := ⟨0, 0, 10, 10⟩, initial_bbox := ⟨0, 0, 10, 10⟩,
    frame_count := 10, frames_since_reinit := 10, consecutive_low_psr_count := n,
    psr_history := [1 / 8], size_history := [⟨10, 10⟩] }

/-- A tracking state still inside the default cooldown in which both triggers
would otherwise fire. -/
def stateInCooldown : TrackingState :=
  { stateAfterCooldown 100 with frame_count := 9, frames_since_reinit := 9 }

/-- The report of a tracker at raw PSR `psr`. -/
def trackerAt (psr : ℚ) : TrackerCSRTV2 :=
  { rawPSR := psr, trackingScore := 1 / 2, targetLost := false, stats := TrackingStats.empty }

/-- An active controller with the default parameters, ten frames after its last
rebuild, tracking a `10 x 10` target, with a low-quality counter of zero. -/
def controllerAfterCooldown : Controller :=
  { tracker_ := some (trackerAt (1 / 8)), params_ := AdaptiveParams.default,
    state_ := stateAfterCooldown 0, last_frame_ := ⟨[1]⟩ }

/-- A successful frame that reports the same `10 x 10` box at raw PSR `1/128`,
together with a rebuild that would succeed. -/
def lowQualityFrame : Mat × UpdateReply × CreateReply :=
  (⟨[2]⟩, ⟨true, ⟨0, 0, 10, 10⟩, trackerAt (1 / 128)⟩, ⟨some (trackerAt (1 / 8)), true⟩)

/-- Twelve observations, numbered 1 to 12 by their PSR value. -/
def twelveObservations : List (ℚ × Size2d) :=
  [(1, ⟨1, 2⟩), (2, ⟨2, 4⟩), (3, ⟨3, 6⟩), (4, ⟨4, 8⟩), (5, ⟨5, 10⟩), (6, ⟨6, 12⟩),
   (7, ⟨7, 14⟩), (8, ⟨8, 16⟩), (9, ⟨9, 18⟩), (10, ⟨10, 20⟩), (11, ⟨11, 22⟩), (12, ⟨12, 24⟩)]

/-- The default parameters with a requested template size of 300. -/
def paramsTemplate300 : AdaptiveParams :=
  { AdaptiveParams.default with
    csrt_params := { AdaptiveParams.default.csrt_params with template_size := 300 } }

/-- An active controller past the cooldown whose low-quality counter has reached
the default limit of five, so that the next successful update rebuilds. -/
def controllerAtLimit : Controller :=
  { controllerAfterCooldown with state_ := stateAfterCooldown 5 }

/-- A rebuild in which `create` yields a tracker whose `init` returns false. -/
def replyInitFails : CreateReply := ⟨some (trackerAt (1 / 8)), false⟩

/-- A rebuild in which `create` yields a null pointer. -/
def replyCreateFails : CreateReply := ⟨none, false⟩

/-- A rebuild that succeeds. -/
def replySucceeds : CreateReply := ⟨some (trackerAt (1 / 8)), true⟩

/-- A successful tracker update reporting the box `10 x 10` at raw PSR `1/8`. -/
def goodUpdate : UpdateReply := ⟨true, ⟨0, 0, 10, 10⟩, trackerAt (1 / 8)⟩

/-- A failed tracker update. -/
def failedUpdate : UpdateReply := ⟨false, ⟨3, 4, 5, 6⟩, trackerAt (1 / 128)⟩

/-- A sequence of calls in which no `init` succeeds: an update, an `init` whose
tracker fails to initialize, a parameter change and another update. -/
def opsWithoutInitSuccess : List Op :=
  [Op.update ⟨[2]⟩ ⟨0, 0, 0, 0⟩ goodUpdate replySucceeds,
   Op.init ⟨[3]⟩ ⟨100, 100, 200, 150⟩ replyInitFails,
   Op.updateParams paramsTemplate300 replySucceeds,
   Op.update ⟨[4]⟩ ⟨0, 0, 0, 0⟩ goodUpdate replySucceeds]

/-- A successful frame reporting a `200 x 150` box at raw PSR `1/8`. -/
def constantSizeFrame : Mat × UpdateReply × CreateReply :=
  (⟨[2]⟩, ⟨true, ⟨100, 100, 200, 150⟩, trackerAt (1 / 8)⟩, replySucceeds)

/-- The default parameters with PSR monitoring disabled. -/
def paramsNoMonitoring : AdaptiveParams :=
  { AdaptiveParams.default with enable_psr_monitoring := false }

/-- A sequence of calls after a successful `init` in which everything that can
fail does: a failed tracker update, a parameter change whose rebuild gets no
tracker, an `init` whose tracker fails to initialize, and an update. -/
def opsWithFailures : List Op :=
  [Op.update ⟨[2]⟩ ⟨0, 0, 0, 0⟩ failedUpdate replySucceeds,
   Op.updateParams paramsTemplate300 replyCreateFails,
   Op.init ⟨[3]⟩ ⟨100, 100, 200, 150⟩ replyInitFails,
   Op.update ⟨[4]⟩ ⟨0, 0, 0, 0⟩ goodUpdate replyInitFails]

/-- The default parameters with PSR monitoring disabled and no cooldown. -/
def paramsNoCooldown : AdaptiveParams :=
  { AdaptiveParams.default with enable_psr_monitoring := false, reinit_cooldown_frames := 0 }

/-- An earlier use of a controller: a successful `init` on a `10 x 10` target and
one successful update reporting that size. -/
def earlierUse : List Op :=
  [Op.init ⟨[1]⟩ ⟨0, 0, 10, 10⟩ replySucceeds,
   Op.update ⟨[2]⟩ ⟨0, 0, 0, 0⟩ goodUpdate replySucceeds]

/-! ## Theorems: reinitialization policy -/

/-- C1. Cooldown gate: whenever `frames_since_reinit < reinit_cooldown_frames`,
`shouldReinitialize` returns false, whatever the low-PSR counter, the size
history, the current box and the two enable flags are. -/
theorem shouldReinitialize_cooldown_gate (params : AdaptiveParams) (state : TrackingState)
    (current_bbox : Rect2d)
    (h : state.frames_since_reinit < params.reinit_cooldown_frames) :
    shouldReinitialize params state current_bbox = false := by
  simp [ shouldReinitialize, h]

/-- Witness for C1: nine frames after a rebuild, with both triggers armed (a
counter of 100 and a box four times the recorded area), the answer is false. -/
theorem shouldReinitialize_cooldown_gate_witness :
    stateInCooldown.frames_since_reinit < AdaptiveParams.default.reinit_cooldown_frames ∧
    shouldReinitialize AdaptiveParams.default stateInCooldown ⟨0, 0, 20, 20⟩ = false :=
  ⟨by decide, shouldReinitialize_cooldown_gate _ _ _ (by decide)⟩

/-- C2. Quality trigger boundary: with the cooldown satisfied and PSR monitoring
enabled, `shouldReinitialize` returns true when the low-PSR counter equals the
limit; with the size trigger disabled it returns false when the counter equals
the limit minus one. -/
theorem shouldReinitialize_quality_boundary (params : AdaptiveParams) (state : TrackingState)
    (current_bbox : Rect2d)
    (hcool : params.reinit_cooldown_frames ≤ state.frames_since_reinit)
    (hpsr : params.enable_psr_monitoring = true) :
    shouldReinitialize params
      { state with consecutive_low_psr_count := params.consecutive_low_psr_limit }
      current_bbox = true ∧
    shouldReinitialize { params with enable_size_adaptation := false }
      { state with consecutive_low_psr_count := params.consecutive_low_psr_limit - 1 }
      current_bbox = false := by
  have hc : ¬ state.frames_since_reinit < params.reinit_cooldown_frames := not_lt.mpr hcool
  constructor
  · simp [ shouldReinitialize, hc, hpsr]
  · simp [ shouldReinitialize, hc, hpsr]

/-- Witness for C2: the default parameters and a state ten frames after the
last rebuild. -/
theorem shouldReinitialize_quality_boundary_witness :
    shouldReinitialize AdaptiveParams.default
      { stateAfterCooldown 0 with consecutive_low_psr_count := 5 } ⟨0, 0, 10, 10⟩ = true ∧
    shouldReinitialize { AdaptiveParams.default with enable_size_adaptation := false }
      { stateAfterCooldown 0 with consecutive_low_psr_count := 5 - 1 } ⟨0, 0, 10, 10⟩ = false :=
  shouldReinitialize_quality_boundary AdaptiveParams.default (stateAfterCooldown 0)
    ⟨0, 0, 10, 10⟩ (by decide) rfl

/-- Unfolding of `update` on an initialized controller with a tracker whose
tracker update succeeds. -/
theorem update_of_success (c : Controller) (image : Mat) (bbox : Rect2d) (upd : UpdateReply)
    (reply : CreateReply) (hinit : c.state_.is_initialized = true)
    (htr : c.tracker_.isSome = true) (hs : upd.success = true) :
    update c image bbox upd reply =
      if shouldReinitialize c.params_ (trackedState c upd) upd.rect.toRect2d then
        { ok := ( reinitialize { c with tracker_ := some upd.tracker, state_ := trackedState c upd }
            image upd.rect.toRect2d reply).ok,
          bbox := upd.rect.toRect2d,
          ctl := ( reinitialize { c with tracker_ := some upd.tracker, state_ := trackedState c upd }
            image upd.rect.toRect2d reply).ctl,
          calls := TrackerCall.update image ::
            ( reinitialize { c with tracker_ := some upd.tracker, state_ := trackedState c upd }
              image upd.rect.toRect2d reply).calls }
      else
        { ok := true, bbox := upd.rect.toRect2d,
          ctl := { c with
            tracker_ := some upd.tracker,
            state_ :=
              if (trackedState c upd).current_psr < c.params_.psr_reinit_threshold then
                { trackedState c upd with consecutive_low_psr_count :=
                    (trackedState c upd).consecutive_low_psr_count + 1 }
              else { trackedState c upd with consecutive_low_psr_count := 0 },
            last_frame_ := image },
          calls := [TrackerCall.update image] } := by
  have hguard : (!c.state_.is_initialized || c.tracker_.isNone) = false := by
    cases hn : c.tracker_ with
    | none => simp [hn] at htr
    | some _ => simp [hinit]
  simp only [update, hguard, hs, trackedState]
  rfl

/-- Fields of the recorded state that the history update does not touch. -/
theorem trackedState_fields (c : Controller) (upd : UpdateReply) :
    (trackedState c upd).is_initialized = c.state_.is_initialized ∧
    (trackedState c upd).is_tracking = c.state_.is_tracking ∧
    (trackedState c upd).initial_bbox = c.state_.initial_bbox ∧
    (trackedState c upd).current_bbox = upd.rect.toRect2d ∧
    (trackedState c upd).current_psr = upd.tracker.rawPSR ∧
    (trackedState c upd).tracking_score = upd.tracker.trackingScore ∧
    (trackedState c upd).frame_count = c.state_.frame_count + 1 ∧
    (trackedState c upd).frames_since_reinit = c.state_.frames_since_reinit + 1 ∧
    (trackedState c upd).consecutive_low_psr_count = c.state_.consecutive_low_psr_count :=
  ⟨rfl, rfl, rfl, rfl, rfl, rfl, rfl, rfl, rfl⟩

/-- Unfolding of `reinitialize` when `create` yields a tracker whose `init`
succeeds. -/
theorem reinitialize_of_success (c : Controller) (image : Mat) (bbox : Rect2d)
    (reply : CreateReply) (t : TrackerCSRTV2) (ht : reply.tracker = some t)
    (hok : reply.initOk = true) :
    reinitialize c image bbox reply =
      { ok := true,
        ctl := { c with
          tracker_ := some t,
          params_ := if c.params_.auto_adjust_template_size
            then adaptTemplateSize c.params_ bbox else c.params_,
          state_ := { c.state_ with
            consecutive_low_psr_count := 0, frames_since_reinit := 0 } },
        calls := [TrackerCall.create (if c.params_.auto_adjust_template_size
            then adaptTemplateSize c.params_ bbox else c.params_).csrt_params,
          TrackerCall.init image bbox.toRect] } := by
  simp only [ reinitialize, ht, hok]
  rfl

/-- One low-quality frame: either the tracker is rebuilt and the cooldown
counter is back at zero, or nothing is rebuilt, the counter was below five and
has grown by one, and the standing assumptions still hold. -/
theorem update_low_quality_step (floor : ℚ) (c : Controller) (bbox : Rect2d)
    (i : Mat × UpdateReply × CreateReply)
    (hc : LowQualityReady floor c) (hi : LowQualityInput floor i) :
    (rebuilt (update c i.1 bbox i.2.1 i.2.2).calls = true ∧
      (update c i.1 bbox i.2.1 i.2.2).ok = true ∧
      (update c i.1 bbox i.2.1 i.2.2).ctl.state_.frames_since_reinit = 0) ∨
    (rebuilt (update c i.1 bbox i.2.1 i.2.2).calls = false ∧
      c.state_.consecutive_low_psr_count < 5 ∧
      (update c i.1 bbox i.2.1 i.2.2).ctl.state_.consecutive_low_psr_count
        = c.state_.consecutive_low_psr_count + 1 ∧
      LowQualityReady floor (update c i.1 bbox i.2.1 i.2.2).ctl) := by
  obtain ⟨image, upd, reply⟩ := i
  obtain ⟨hinit, htr, hcool, hmon, hlim, hthr⟩ := hc
  obtain ⟨hs, hpsr, hrt, hrok⟩ := hi
  simp only at hs hpsr hrt hrok ⊢
  obtain ⟨t, ht⟩ := Option.isSome_iff_exists.mp hrt
  obtain ⟨f1, f2, f3, f4, f5, f6, f7, f8, f9⟩ := trackedState_fields c upd
  rw [update_of_success c image bbox upd reply hinit htr hs]
  cases hsr : shouldReinitialize c.params_ (trackedState c upd) upd.rect.toRect2d with
  | true =>
    left
    rw [reinitialize_of_success _ image upd.rect.toRect2d reply t ht hrok]
    simp [rebuilt]
  | false =>
    right
    have hcount : c.state_.consecutive_low_psr_count < 5 := by
      by_contra hge
      have hge5 : (5 : Int) ≤ c.state_.consecutive_low_psr_count := not_lt.mp hge
      have hnc : ¬ c.state_.frames_since_reinit + 1 < c.params_.reinit_cooldown_frames := by
        omega
      simp [ shouldReinitialize, f8, f9, hnc, hmon, hlim, hge5] at hsr
    have hlow : (trackedState c upd).current_psr < c.params_.psr_reinit_threshold := by
      rw [hthr, f5]; exact hpsr
    simp only [Bool.false_eq_true, if_false, if_pos hlow]
    refine ⟨by simp [rebuilt], hcount, by simp [f9], ?_⟩
    refine ⟨by simp [f1, hinit], by simp, ?_, hmon, hlim, hthr⟩
    simp only [f8]
    omega

/-- The first rebuild of a low-quality run, by induction on the number `n` of
frames the counter still needs to reach five. -/
theorem low_quality_run_bound (floor : ℚ) (n : Nat) :
    ∀ (c : Controller) (bbox : Rect2d) (inputs : List (Mat × UpdateReply × CreateReply)),
      LowQualityReady floor c → (5 : Int) ≤ c.state_.consecutive_low_psr_count + n →
      n + 1 ≤ inputs.length → (∀ i ∈ inputs, LowQualityInput floor i) →
      ∃ k r, k ≤ n ∧ (runUpdates c bbox inputs)[k]? = some r ∧
        rebuilt r.calls = true ∧ r.ok = true ∧ r.ctl.state_.frames_since_reinit = 0 ∧
        ∀ j q, j < k → (runUpdates c bbox inputs)[j]? = some q → rebuilt q.calls = false := by
  induction n with
  | zero =>
    intro c bbox inputs hc hcount hlen hin
    cases inputs with
    | nil => simp at hlen
    | cons i rest =>
      rcases update_low_quality_step floor c bbox i hc (hin i (by simp)) with h | h
      · refine ⟨0, _, le_refl 0, ?_, h.1, h.2.1, h.2.2, ?_⟩
        · obtain ⟨image, upd, reply⟩ := i
          simp [runUpdates]
        · intro j q hj
          omega
      · exfalso
        have := h.2.1
        simp at hcount
        omega
  | succ n ih =>
    intro c bbox inputs hc hcount hlen hin
    cases inputs with
    | nil => simp at hlen
    | cons i rest =>
      rcases update_low_quality_step floor c bbox i hc (hin i (by simp)) with h | h
      · refine ⟨0, _, Nat.zero_le _, ?_, h.1, h.2.1, h.2.2, ?_⟩
        · obtain ⟨image, upd, reply⟩ := i
          simp [runUpdates]
        · intro j q hj
          omega
      · obtain ⟨hnot, _, hinc, hready⟩ := h
        have hlen2 : n + 1 ≤ rest.length := by
          simp at hlen
          omega
        have hcount2 : (5 : Int) ≤
            (update c i.1 bbox i.2.1 i.2.2).ctl.state_.consecutive_low_psr_count + n := by
          rw [hinc]
          push_cast at hcount
          omega
        obtain ⟨k, r, hk, hr, h1, h2, h3, h4⟩ :=
          ih (update c i.1 bbox i.2.1 i.2.2).ctl (update c i.1 bbox i.2.1 i.2.2).bbox rest
            hready hcount2 hlen2 (fun x hx => hin x (by simp [hx]))
        obtain ⟨image, upd, reply⟩ := i
        refine ⟨k + 1, r, by omega, ?_, h1, h2, h3, ?_⟩
        · simpa [runUpdates] using hr
        · intro j q hj hq
          cases j with
          | zero =>
            simp [runUpdates] at hq
            rw [← hq]
            exact hnot
          | succ j =>
            simp only [runUpdates, List.getElem?_cons_succ] at hq
            exact h4 j q (by omega) hq

/-! ## Theorems: low-quality scenario -/

/-- C5 (amended). End-to-end low-quality scenario: for every active controller
whose cooldown has elapsed, with PSR monitoring enabled, limit 5, any floor
stored in `psr_reinit_threshold` (the binary32 value of `0.02f` for the default)
and a non-negative low-PSR counter, if successive `update` calls all succeed,
each reports a raw PSR below the stored floor and the rebuilt tracker's `init`
succeeds, then a reinitialization is performed no later than the 6th call, and
right after the first call that performs it `frames_since_reinit` is 0. -/
theorem low_quality_run_rebuilds_by_sixth (floor : ℚ) (c : Controller) (bbox : Rect2d)
    (inputs : List (Mat × UpdateReply × CreateReply))
    (hc : LowQualityReady floor c) (hcount : 0 ≤ c.state_.consecutive_low_psr_count)
    (hlen : 6 ≤ inputs.length) (hin : ∀ i ∈ inputs, LowQualityInput floor i) :
    ∃ k r, k < 6 ∧ (runUpdates c bbox inputs)[k]? = some r ∧
      rebuilt r.calls = true ∧ r.ok = true ∧ r.ctl.state_.frames_since_reinit = 0 ∧
      ∀ j q, j < k → (runUpdates c bbox inputs)[j]? = some q → rebuilt q.calls = false := by
  obtain ⟨k, r, hk, h⟩ := low_quality_run_bound floor 5 c bbox inputs hc
    (by push_cast; omega) (by omega) hin
  exact ⟨k, r, by omega, h⟩

/-- Witness for C5: six frames at raw PSR `1/128`, below the default floor
`0.02f = 5368709 / 2^28`, on a controller with the default parameters ten
frames after its last rebuild. -/
theorem low_quality_run_rebuilds_by_sixth_witness :
    (LowQualityReady (5368709 / 268435456) controllerAfterCooldown ∧
      LowQualityInput (5368709 / 268435456) lowQualityFrame) ∧
    ∃ k r, k < 6 ∧
      (runUpdates controllerAfterCooldown ⟨0, 0, 0, 0⟩ (List.replicate 6 lowQualityFrame))[k]?
        = some r ∧
      rebuilt r.calls = true ∧ r.ok = true ∧ r.ctl.state_.frames_since_reinit = 0 ∧
      ∀ j q, j < k →
        (runUpdates controllerAfterCooldown ⟨0, 0, 0, 0⟩ (List.replicate 6 lowQualityFrame))[j]?
          = some q → rebuilt q.calls = false :=
  ⟨⟨by unfold LowQualityReady; decide!, by unfold LowQualityInput; decide!⟩,
   low_quality_run_rebuilds_by_sixth (5368709 / 268435456) controllerAfterCooldown ⟨0, 0, 0, 0⟩
    (List.replicate 6 lowQualityFrame)
    (by unfold LowQualityReady; decide!) (by decide!) (by simp)
    (fun i hi => by
      rw [List.eq_of_mem_replicate hi]
      unfold LowQualityInput
      decide!)⟩

/-- Counterexample to C5 as stated: on a controller with the default parameters
(floor `0.02f = 5368709 / 2^28`) whose cooldown has elapsed and whose low-PSR
counter is 0, five successive successful frames at raw PSR `1/128`, below the
floor, rebuild nothing; the rebuild happens in the sixth call, which leaves
`frames_since_reinit` at 0. -/
theorem low_quality_run_fifth_counterexample :
    (controllerAfterCooldown.params_.reinit_cooldown_frames
        ≤ controllerAfterCooldown.state_.frames_since_reinit ∧
      controllerAfterCooldown.params_.enable_psr_monitoring = true ∧
      controllerAfterCooldown.params_.consecutive_low_psr_limit = 5 ∧
      controllerAfterCooldown.params_.psr_reinit_threshold = 5368709 / 268435456 ∧
      lowQualityFrame.2.1.success = true ∧
      lowQualityFrame.2.1.tracker.rawPSR
        < controllerAfterCooldown.params_.psr_reinit_threshold) ∧
    (runUpdates controllerAfterCooldown ⟨0, 0, 0, 0⟩ (List.replicate 5 lowQualityFrame)).map
      (fun r => (r.ok, rebuilt r.calls)) =
      [(true, false), (true, false), (true, false), (true, false), (true, false)] ∧
    (runUpdates controllerAfterCooldown ⟨0, 0, 0, 0⟩ (List.replicate 6 lowQualityFrame)).map
      (fun r => (rebuilt r.calls, r.ctl.state_.frames_since_reinit)) =
      [(false, 11), (false, 12), (false, 13), (false, 14), (false, 15), (true, 0)] := by
  refine ⟨by decide!, by decide!, by decide!⟩

/-! ## Theorems: reinitialization effect -/

/-- C6. A successful `reinitialize(frame, box)` sets `consecutive_low_psr_count`
and `frames_since_reinit` to 0 and changes nothing else in the tracking state:
`psr_history` and `size_history` are exactly as before, and so are
`frame_count`, `current_bbox` and `initial_bbox`. -/
theorem reinitialize_success_effect (c : Controller) (image : Mat) (bbox : Rect2d)
    (reply : CreateReply) (h : ( reinitialize c image bbox reply).ok = true) :
    ( reinitialize c image bbox reply).ctl.state_ =
      { c.state_ with consecutive_low_psr_count := 0, frames_since_reinit := 0 } ∧
    ( reinitialize c image bbox reply).ctl.state_.consecutive_low_psr_count = 0 ∧
    ( reinitialize c image bbox reply).ctl.state_.frames_since_reinit = 0 ∧
    ( reinitialize c image bbox reply).ctl.state_.psr_history = c.state_.psr_history ∧
    ( reinitialize c image bbox reply).ctl.state_.size_history = c.state_.size_history ∧
    ( reinitialize c image bbox reply).ctl.state_.frame_count = c.state_.frame_count ∧
    ( reinitialize c image bbox reply).ctl.state_.current_bbox = c.state_.current_bbox ∧
    ( reinitialize c image bbox reply).ctl.state_.initial_bbox = c.state_.initial_bbox := by
  cases ht : reply.tracker with
  | none => simp [ reinitialize, ht] at h
  | some t =>
    cases hok : reply.initOk with
    | false => simp [ reinitialize, ht, hok] at h
    | true =>
      rw [reinitialize_of_success c image bbox reply t ht hok]
      exact ⟨rfl, rfl, rfl, rfl, rfl, rfl, rfl, rfl⟩

/-- Witness for C6: a successful rebuild on a controller whose counters are 3
and 10 and whose histories hold one observation each. -/
theorem reinitialize_success_effect_witness :
    ( reinitialize { controllerAfterCooldown with state_ := stateAfterCooldown 3 } ⟨[2]⟩
        ⟨0, 0, 10, 10⟩ ⟨some (trackerAt (1 / 8)), true⟩).ok = true ∧
    ( reinitialize { controllerAfterCooldown with state_ := stateAfterCooldown 3 } ⟨[2]⟩
        ⟨0, 0, 10, 10⟩ ⟨some (trackerAt (1 / 8)), true⟩).ctl.state_ =
      { stateAfterCooldown 3 with consecutive_low_psr_count := 0, frames_since_reinit := 0 } :=
  ⟨by decide!,
   (reinitialize_success_effect { controllerAfterCooldown with state_ := stateAfterCooldown 3 }
      ⟨[2]⟩ ⟨0, 0, 10, 10⟩ ⟨some (trackerAt (1 / 8)), true⟩ (by decide!)).1⟩

/-! ## Theorems: history buffer -/

/-- Pushing onto the last ten entries of a sequence yields the last ten entries
of the extended sequence. -/
theorem pushBounded_drop {α : Type} (all : List α) (x : α) :
    pushBounded (all.drop (all.length - HISTORY_SIZE)) x
      = (all ++ [x]).drop ((all ++ [x]).length - HISTORY_SIZE) := by
  unfold pushBounded HISTORY_SIZE
  simp only [List.length_append, List.length_drop, List.length_singleton]
  by_cases h : all.length < 10
  · have h0 : all.length - 10 = 0 := by omega
    have h1 : all.length + 1 - 10 = 0 := by omega
    have h2 : ¬ (all.length - (all.length - 10) + 1 > 10) := by omega
    rw [if_neg h2, h0, h1]
    simp
  · have h2 : all.length - (all.length - 10) + 1 > 10 := by omega
    have h3 : all.length + 1 - 10 = (all.length - 10) + 1 := by omega
    have h4 : all.length - 10 < all.length := by omega
    rw [if_pos h2, h3, List.drop_append_of_le_length (by omega)]
    rw [← List.drop_one, List.drop_append_of_le_length (by simp; omega), List.drop_drop]

/-- The histories after recording `obs` on top of a state that already holds
the last ten observations of `all`. -/
theorem recordAll_drop (obs : List (ℚ × Size2d)) :
    ∀ (all : List (ℚ × Size2d)) (s : TrackingState),
      s.psr_history = (all.map Prod.fst).drop (all.length - HISTORY_SIZE) →
      s.size_history = (all.map Prod.snd).drop (all.length - HISTORY_SIZE) →
      (recordAll s obs).psr_history
        = ((all ++ obs).map Prod.fst).drop ((all ++ obs).length - HISTORY_SIZE) ∧
      (recordAll s obs).size_history
        = ((all ++ obs).map Prod.snd).drop ((all ++ obs).length - HISTORY_SIZE) := by
  induction obs with
  | nil =>
    intro all s hp hs
    simpa [recordAll] using ⟨hp, hs⟩
  | cons o rest ih =>
    intro all s hp hs
    have hp2 : (s.updateHistory o.1 o.2).psr_history
        = ((all ++ [o]).map Prod.fst).drop ((all ++ [o]).length - HISTORY_SIZE) := by
      have := pushBounded_drop (all.map Prod.fst) o.1
      simp only [List.length_map] at this
      simp only [TrackingState.updateHistory, hp, this]
      simp
    have hs2 : (s.updateHistory o.1 o.2).size_history
        = ((all ++ [o]).map Prod.snd).drop ((all ++ [o]).length - HISTORY_SIZE) := by
      have := pushBounded_drop (all.map Prod.snd) o.2
      simp only [List.length_map] at this
      simp only [TrackingState.updateHistory, hs, this]
      simp
    have := ih (all ++ [o]) (s.updateHistory o.1 o.2) hp2 hs2
    simpa [recordAll] using this

/-- C7. History buffer capacity and FIFO order: starting from a state with empty
histories, after any sequence of `k` `updateHistory` calls both `psr_history` and
`size_history` hold exactly the last `min k 10` observations, in insertion order
(the sequence with its oldest `k - 10` entries dropped); their lengths are
`min k 10`, so never above `HISTORY_SIZE = 10`. -/
theorem updateHistory_fifo (s0 : TrackingState) (obs : List (ℚ × Size2d))
    (hp : s0.psr_history = []) (hs : s0.size_history = []) :
    (recordAll s0 obs).psr_history = (obs.map Prod.fst).drop (obs.length - HISTORY_SIZE) ∧
    (recordAll s0 obs).size_history = (obs.map Prod.snd).drop (obs.length - HISTORY_SIZE) ∧
    (recordAll s0 obs).psr_history.length = min obs.length HISTORY_SIZE ∧
    (recordAll s0 obs).size_history.length = min obs.length HISTORY_SIZE ∧
    (recordAll s0 obs).psr_history.length ≤ HISTORY_SIZE ∧
    (recordAll s0 obs).size_history.length ≤ HISTORY_SIZE := by
  obtain ⟨h1, h2⟩ := recordAll_drop obs [] s0 (by simp [hp]) (by simp [hs])
  simp only [List.nil_append] at h1 h2
  have l1 : (recordAll s0 obs).psr_history.length = min obs.length HISTORY_SIZE := by
    rw [h1]; simp; omega
  have l2 : (recordAll s0 obs).size_history.length = min obs.length HISTORY_SIZE := by
    rw [h2]; simp; omega
  exact ⟨h1, h2, l1, l2, by rw [l1]; exact min_le_right _ _, by rw [l2]; exact min_le_right _ _⟩

/-- Witness for C7: twelve observations recorded from the default state leave
observations 3 to 12, in order; the two oldest are gone. -/
theorem updateHistory_fifo_witness :
    ((recordAll TrackingState.fresh twelveObservations).psr_history
        = (twelveObservations.map Prod.fst).drop (twelveObservations.length - HISTORY_SIZE) ∧
      (recordAll TrackingState.fresh twelveObservations).size_history
        = (twelveObservations.map Prod.snd).drop (twelveObservations.length - HISTORY_SIZE) ∧
      (recordAll TrackingState.fresh twelveObservations).psr_history.length
        = min twelveObservations.length HISTORY_SIZE ∧
      (recordAll TrackingState.fresh twelveObservations).size_history.length
        = min twelveObservations.length HISTORY_SIZE ∧
      (recordAll TrackingState.fresh twelveObservations).psr_history.length ≤ HISTORY_SIZE ∧
      (recordAll TrackingState.fresh twelveObservations).size_history.length ≤ HISTORY_SIZE) ∧
    (recordAll TrackingState.fresh twelveObservations).psr_history
      = [3, 4, 5, 6, 7, 8, 9, 10, 11, 12] :=
  ⟨updateHistory_fifo TrackingState.fresh twelveObservations rfl rfl, by decide!⟩

/-- The accumulation loop of `getAveragePSR` computes the sum. -/
theorem foldl_psr_eq_sum (l : List ℚ) :
    ∀ a : ℚ, l.foldl (fun acc psr => acc + psr) a = a + l.sum := by
  induction l with
  | nil => intro a; simp
  | cons x xs ih => intro a; simp [ih, add_assoc]

/-- The accumulation loop of `getAverageSize` computes both sums. -/
theorem foldl_size_eq_sum (l : List Size2d) :
    ∀ a b : ℚ,
      l.foldl (fun (acc : ℚ × ℚ) size => (acc.1 + size.width, acc.2 + size.height)) (a, b)
        = (a + (l.map Size2d.width).sum, b + (l.map Size2d.height).sum) := by
  induction l with
  | nil => intro a b; simp
  | cons x xs ih => intro a b; simp [ih, add_assoc]

/-- C8. `getAveragePSR` is the arithmetic mean of the retained PSR values and
`getAverageSize` the component-wise arithmetic mean of the retained sizes (over
the rationals); on an empty buffer they return 0 and `Size(0, 0)`, and on a
buffer of one observation exactly that observation. -/
theorem averages_are_means (s : TrackingState) :
    (s.psr_history = [] → s.getAveragePSR = 0) ∧
    (s.size_history = [] → s.getAverageSize = ⟨0, 0⟩) ∧
    (s.psr_history ≠ [] →
      s.getAveragePSR = s.psr_history.sum / s.psr_history.length) ∧
    (s.size_history ≠ [] →
      s.getAverageSize =
        ⟨(s.size_history.map Size2d.width).sum / s.size_history.length,
         (s.size_history.map Size2d.height).sum / s.size_history.length⟩) ∧
    (∀ x, s.psr_history = [x] → s.getAveragePSR = x) ∧
    (∀ z, s.size_history = [z] → s.getAverageSize = z) := by
  refine ⟨?_, ?_, ?_, ?_, ?_, ?_⟩
  · intro h
    simp [TrackingState.getAveragePSR, h]
  · intro h
    simp [TrackingState.getAverageSize, h]
  · intro h
    have he : s.psr_history.isEmpty = false := by simpa using h
    simp [TrackingState.getAveragePSR, he, foldl_psr_eq_sum]
  · intro h
    have he : s.size_history.isEmpty = false := by simpa using h
    simp only [TrackingState.getAverageSize, he, Bool.false_eq_true, if_false,
      foldl_size_eq_sum, zero_add]
  · intro x h
    simp [TrackingState.getAveragePSR, h]
  · intro z h
    simp [TrackingState.getAverageSize, h]

/-! ## Theorems: size configuration heuristic -/

/-- C10. Size configuration heuristic: with `area = width * height`,
`adaptTemplateSize` sets `template_size` to 150 when `area < 10000`, to 200 when
`10000 <= area < 40000` and to 250 when `area >= 40000`, and `number_of_scales`
to 25 when `area > 50000` and to 33 otherwise (areas exactly 10000, 40000 and
50000 give 200/33, 250/33 and 250/33); no other configuration field changes and
the result depends on the box only through its area. -/
theorem adaptTemplateSize_spec (params : AdaptiveParams) (bbox : Rect2d) :
    (bbox.width * bbox.height < 10000 →
      (adaptTemplateSize params bbox).csrt_params.template_size = 150) ∧
    (10000 ≤ bbox.width * bbox.height → bbox.width * bbox.height < 40000 →
      (adaptTemplateSize params bbox).csrt_params.template_size = 200) ∧
    (40000 ≤ bbox.width * bbox.height →
      (adaptTemplateSize params bbox).csrt_params.template_size = 250) ∧
    (bbox.width * bbox.height > 50000 →
      (adaptTemplateSize params bbox).csrt_params.number_of_scales = 25) ∧
    (bbox.width * bbox.height ≤ 50000 →
      (adaptTemplateSize params bbox).csrt_params.number_of_scales = 33) ∧
    (bbox.width * bbox.height = 10000 →
      (adaptTemplateSize params bbox).csrt_params.template_size = 200 ∧
      (adaptTemplateSize params bbox).csrt_params.number_of_scales = 33) ∧
    (bbox.width * bbox.height = 40000 →
      (adaptTemplateSize params bbox).csrt_params.template_size = 250 ∧
      (adaptTemplateSize params bbox).csrt_params.number_of_scales = 33) ∧
    (bbox.width * bbox.height = 50000 →
      (adaptTemplateSize params bbox).csrt_params.template_size = 250 ∧
      (adaptTemplateSize params bbox).csrt_params.number_of_scales = 33) ∧
    adaptTemplateSize params bbox =
      { params with csrt_params := { params.csrt_params with
          template_size := (adaptTemplateSize params bbox).csrt_params.template_size,
          number_of_scales := (adaptTemplateSize params bbox).csrt_params.number_of_scales } } ∧
    (∀ other : Rect2d, other.width * other.height = bbox.width * bbox.height →
      adaptTemplateSize params other = adaptTemplateSize params bbox) := by
  refine ⟨?_, ?_, ?_, ?_, ?_, ?_, ?_, ?_, ?_, ?_⟩
  · intro h
    simp only [adaptTemplateSize, if_pos h]
    split <;> rfl
  · intro h1 h2
    simp only [adaptTemplateSize, if_neg (not_lt.mpr h1), if_pos h2]
    split <;> rfl
  · intro h1
    have h2 : ¬ bbox.width * bbox.height < 10000 := by linarith
    have h3 : ¬ bbox.width * bbox.height < 40000 := by linarith
    simp only [adaptTemplateSize, if_neg h2, if_neg h3]
    split <;> rfl
  · intro h
    simp only [adaptTemplateSize, if_pos h]
  · intro h
    simp only [adaptTemplateSize, if_neg (not_lt.mpr h)]
  · intro h
    simp only [adaptTemplateSize, h]
    norm_num
  · intro h
    simp only [adaptTemplateSize, h]
    norm_num
  · intro h
    simp only [adaptTemplateSize, h]
    norm_num
  · by_cases h1 : bbox.width * bbox.height < 10000 <;>
      by_cases h2 : bbox.width * bbox.height < 40000 <;>
      by_cases h3 : bbox.width * bbox.height > 50000 <;>
      simp [adaptTemplateSize, h1, h2, h3]
  · intro other h
    simp only [adaptTemplateSize, h]

/-! ## Theorems: configuration hot-update -/

/-- The parameters stored by `reinitialize`, whatever its outcome. -/
theorem reinitialize_params (c : Controller) (image : Mat) (bbox : Rect2d)
    (reply : CreateReply) :
    ( reinitialize c image bbox reply).ctl.params_ =
      (if c.params_.auto_adjust_template_size
        then adaptTemplateSize c.params_ bbox else c.params_) ∧
    rebuilt ( reinitialize c image bbox reply).calls = true := by
  cases ht : reply.tracker with
  | none => simp [ reinitialize, ht, rebuilt]
  | some t =>
    cases hok : reply.initOk <;> simp [ reinitialize, ht, hok, rebuilt]

/-- Unfolding of `update` on a controller that is not initialized or holds no
tracker: nothing happens. -/
theorem update_of_guard (c : Controller) (image : Mat) (bbox : Rect2d) (upd : UpdateReply)
    (reply : CreateReply)
    (h : c.state_.is_initialized = false ∨ c.tracker_ = none) :
    update c image bbox upd reply = { ok := false, bbox := bbox, ctl := c, calls := [] } := by
  rcases h with h | h
  · simp [update, h]
  · simp [update, h]

/-- Unfolding of `update` on an initialized controller with a tracker whose
tracker update fails. -/
theorem update_of_failure (c : Controller) (image : Mat) (bbox : Rect2d) (upd : UpdateReply)
    (reply : CreateReply) (hinit : c.state_.is_initialized = true)
    (htr : c.tracker_.isSome = true) (hs : upd.success = false) :
    update c image bbox upd reply =
      { ok := false, bbox := bbox,
        ctl := { c with
          tracker_ := some upd.tracker,
          state_ := { c.state_ with
            frame_count := c.state_.frame_count + 1,
            frames_since_reinit := c.state_.frames_since_reinit + 1 },
          last_frame_ := image },
        calls := [TrackerCall.update image] } := by
  have hguard : (!c.state_.is_initialized || c.tracker_.isNone) = false := by
    cases hn : c.tracker_ with
    | none => simp [hn] at htr
    | some _ => simp [hinit]
  simp only [update, hguard, hs]
  rfl

/-- A run of `update` calls on a controller that is not initialized or holds no
tracker: every call returns false, calls nothing and leaves the controller as
it was. -/
theorem runUpdates_of_guard (inputs : List (Mat × UpdateReply × CreateReply)) :
    ∀ (c : Controller) (bbox : Rect2d),
      (c.state_.is_initialized = false ∨ c.tracker_ = none) →
      ∀ r ∈ runUpdates c bbox inputs, r.ok = false ∧ r.ctl = c ∧ r.calls = [] := by
  induction inputs with
  | nil => intro c bbox _ r hr; simp [runUpdates] at hr
  | cons i rest ih =>
    intro c bbox h r hr
    obtain ⟨image, upd, reply⟩ := i
    simp only [runUpdates, update_of_guard c image bbox upd reply h, List.mem_cons] at hr
    rcases hr with hr | hr
    · rw [hr]; exact ⟨rfl, rfl, rfl⟩
    · exact ih c bbox h r hr

/-- C11 (failing input). On an active controller, `reinitialize` with a tracker
that is created but whose `init` returns false returns false and keeps the new
tracker as handle, with `is_initialized` still true; the next `update`, no `init`
in between, is forwarded to that tracker and returns true when the tracker
reports success. -/
theorem reinitialize_init_failure_keeps_handle :
    ( reinitialize controllerAfterCooldown ⟨[2]⟩ ⟨0, 0, 10, 10⟩ replyInitFails).ok = false ∧
    ( reinitialize controllerAfterCooldown ⟨[2]⟩ ⟨0, 0, 10, 10⟩ replyInitFails).ctl.tracker_
      = some (trackerAt (1 / 8)) ∧
    ( reinitialize controllerAfterCooldown ⟨[2]⟩ ⟨0, 0, 10, 10⟩
        replyInitFails).ctl.state_.is_initialized = true ∧
    (update ( reinitialize controllerAfterCooldown ⟨[2]⟩ ⟨0, 0, 10, 10⟩ replyInitFails).ctl
      ⟨[3]⟩ ⟨0, 0, 0, 0⟩ goodUpdate replyInitFails).ok = true ∧
    (update ( reinitialize controllerAfterCooldown ⟨[2]⟩ ⟨0, 0, 10, 10⟩ replyInitFails).ctl
      ⟨[3]⟩ ⟨0, 0, 0, 0⟩ goodUpdate replyInitFails).calls = [TrackerCall.update ⟨[3]⟩] := by
  refine ⟨by decide!, by decide!, by decide!, by decide!, by decide!⟩

/-! ## Theorems: accessors -/

/-- C12 (amended). Accessor defaults: when the controller holds no tracker
handle, `getTrackingScore` returns 0, `getRawPSR` returns 0, `isTargetLost`
returns true and `getTrackingStats` returns the empty default statistics; when
a handle exists each returns the handle's value. The accessors are functions of
the controller and return no controller, so they change nothing. -/
theorem accessors_pass_through (c : Controller) :
    (c.tracker_ = none →
      getTrackingScore c = 0 ∧ getRawPSR c = 0 ∧ isTargetLost c = true ∧
      getTrackingStats c = TrackingStats.empty) ∧
    (∀ t, c.tracker_ = some t →
      getTrackingScore c = t.trackingScore ∧ getRawPSR c = t.rawPSR ∧
      isTargetLost c = t.targetLost ∧ getTrackingStats c = t.stats) := by
  constructor
  · intro h
    simp [getTrackingScore, getRawPSR, isTargetLost, getTrackingStats, h]
  · intro t h
    simp [getTrackingScore, getRawPSR, isTargetLost, getTrackingStats, h]

/-- Counterexample to C12 as stated: a newly constructed controller holds no
tracker handle and its `isTargetLost` returns true, not false. -/
theorem isTargetLost_without_handle_counterexample :
    (Controller.new AdaptiveParams.default).tracker_ = none ∧
    isTargetLost (Controller.new AdaptiveParams.default) = true ∧
    isTargetLost (Controller.new AdaptiveParams.default) ≠ false := by
  refine ⟨rfl, rfl, by decide⟩

/-! ## Theorems: frame caching and transient failure -/

/-- An `update` that calls the tracker and does not rebuild caches the frame it
was given. -/
theorem update_caches_frame_without_rebuild (c : Controller) (image : Mat) (bbox : Rect2d)
    (upd : UpdateReply) (reply : CreateReply)
    (hinit : c.state_.is_initialized = true) (htr : c.tracker_.isSome = true)
    (hno : rebuilt (update c image bbox upd reply).calls = false) :
    (update c image bbox upd reply).ctl.last_frame_ = image := by
  cases hs : upd.success with
  | false => rw [update_of_failure c image bbox upd reply hinit htr hs]
  | true =>
    rw [update_of_success c image bbox upd reply hinit htr hs] at hno ⊢
    cases hsr : shouldReinitialize c.params_ (trackedState c upd) upd.rect.toRect2d with
    | false => simp
    | true =>
      simp only [hsr, if_true] at hno
      have := ( reinitialize_params
        { c with tracker_ := some upd.tracker, state_ := trackedState c upd }
        image upd.rect.toRect2d reply).2
      simp [rebuilt] at hno this
      obtain ⟨x, hx, hx2⟩ := this
      have := hno x hx
      simp [hx2] at this

/-- C13 (failing input). The controller is initialized with a handle, its cached
frame is `[1]` and its low-quality counter has reached the limit. `update` with
frame `[2]` succeeds at the tracker, triggers a reinitialization that succeeds,
and returns true; the cached frame afterwards is still `[1]`, not `[2]`. -/
theorem update_rebuild_keeps_stale_frame :
    controllerAtLimit.state_.is_initialized = true ∧
    controllerAtLimit.tracker_.isSome = true ∧
    controllerAtLimit.last_frame_ = ⟨[1]⟩ ∧
    (update controllerAtLimit ⟨[2]⟩ ⟨0, 0, 0, 0⟩ goodUpdate replySucceeds).ok = true ∧
    rebuilt (update controllerAtLimit ⟨[2]⟩ ⟨0, 0, 0, 0⟩ goodUpdate replySucceeds).calls = true ∧
    (update controllerAtLimit ⟨[2]⟩ ⟨0, 0, 0, 0⟩ goodUpdate replySucceeds).ctl.last_frame_
      = ⟨[1]⟩ ∧
    (update controllerAtLimit ⟨[2]⟩ ⟨0, 0, 0, 0⟩ goodUpdate replySucceeds).ctl.last_frame_
      ≠ ⟨[2]⟩ := by
  refine ⟨rfl, rfl, rfl, by decide!, by decide!, by decide!, by decide!⟩

/-- C14. Transient tracking failure: when `update` is called on an initialized
controller with a handle and the tracker's update fails, `update` returns false,
`frame_count` and `frames_since_reinit` are each incremented by exactly 1,
`current_bbox`, `current_psr`, `tracking_score`, `consecutive_low_psr_count`,
`psr_history` and `size_history` are unchanged, the only call to the tracker is
its update (no reinitialization is attempted), and the caller's `bbox` is not
written. -/
theorem update_transient_failure (c : Controller) (image : Mat) (bbox : Rect2d)
    (upd : UpdateReply) (reply : CreateReply)
    (hinit : c.state_.is_initialized = true) (htr : c.tracker_.isSome = true)
    (hs : upd.success = false) :
    (update c image bbox upd reply).ok = false ∧
    (update c image bbox upd reply).ctl.state_.frame_count = c.state_.frame_count + 1 ∧
    (update c image bbox upd reply).ctl.state_.frames_since_reinit
      = c.state_.frames_since_reinit + 1 ∧
    (update c image bbox upd reply).ctl.state_.current_bbox = c.state_.current_bbox ∧
    (update c image bbox upd reply).ctl.state_.current_psr = c.state_.current_psr ∧
    (update c image bbox upd reply).ctl.state_.tracking_score = c.state_.tracking_score ∧
    (update c image bbox upd reply).ctl.state_.consecutive_low_psr_count
      = c.state_.consecutive_low_psr_count ∧
    (update c image bbox upd reply).ctl.state_.psr_history = c.state_.psr_history ∧
    (update c image bbox upd reply).ctl.state_.size_history = c.state_.size_history ∧
    (update c image bbox upd reply).calls = [TrackerCall.update image] ∧
    rebuilt (update c image bbox upd reply).calls = false ∧
    (update c image bbox upd reply).bbox = bbox := by
  rw [update_of_failure c image bbox upd reply hinit htr hs]
  exact ⟨rfl, rfl, rfl, rfl, rfl, rfl, rfl, rfl, rfl, rfl, rfl, rfl⟩

/-- Witness for C14: a failed tracker update on an active controller whose
counters stand at 10 and whose caller passes the box `(1, 2, 3, 4)`. -/
theorem update_transient_failure_witness :
    (update controllerAfterCooldown ⟨[2]⟩ ⟨1, 2, 3, 4⟩ failedUpdate replySucceeds).ok = false ∧
    (update controllerAfterCooldown ⟨[2]⟩ ⟨1, 2, 3, 4⟩ failedUpdate
      replySucceeds).ctl.state_.frame_count = 10 + 1 ∧
    (update controllerAfterCooldown ⟨[2]⟩ ⟨1, 2, 3, 4⟩ failedUpdate replySucceeds).bbox
      = ⟨1, 2, 3, 4⟩ :=
  have h := update_transient_failure controllerAfterCooldown ⟨[2]⟩ ⟨1, 2, 3, 4⟩ failedUpdate
    replySucceeds rfl rfl rfl
  ⟨h.1, h.2.1, h.2.2.2.2.2.2.2.2.2.2.2⟩

/-! ## Theorems: init -/

/-- Unfolding of `init` when `create` yields a tracker whose `init` succeeds. -/
theorem init_of_success (c : Controller) (image : Mat) (bbox : Rect2d)
    (reply : CreateReply) (t : TrackerCSRTV2) (ht : reply.tracker = some t)
    (hok : reply.initOk = true) :
    init c image bbox reply =
      { ok := true,
        ctl := {
          tracker_ := some t,
          params_ := if c.params_.auto_adjust_template_size
            then adaptTemplateSize c.params_ bbox else c.params_,
          state_ := { c.state_ with
            is_initialized := true, is_tracking := true,
            current_bbox := bbox, initial_bbox := bbox,
            frame_count := 0, consecutive_low_psr_count := 0, frames_since_reinit := 0 },
          last_frame_ := image },
        calls := [TrackerCall.create (if c.params_.auto_adjust_template_size
            then adaptTemplateSize c.params_ bbox else c.params_).csrt_params,
          TrackerCall.init image bbox.toRect] } := by
  simp only [init, ht, hok]
  rfl

/-- An `init` that returns true had a tracker created whose `init` succeeded. -/
theorem init_ok_reply (c : Controller) (image : Mat) (bbox : Rect2d) (reply : CreateReply)
    (h : (init c image bbox reply).ok = true) :
    ∃ t, reply.tracker = some t ∧ reply.initOk = true := by
  cases ht : reply.tracker with
  | none => simp [init, ht] at h
  | some t =>
    cases hok : reply.initOk with
    | false => simp [init, ht, hok] at h
    | true => exact ⟨t, rfl, rfl⟩

/-- An `init` that returns false leaves the tracking state and the cached frame
as they were; the handle is whatever `create` returned. -/
theorem init_of_failure (c : Controller) (image : Mat) (bbox : Rect2d) (reply : CreateReply)
    (h : (init c image bbox reply).ok = false) :
    (init c image bbox reply).ctl.state_ = c.state_ ∧
    (init c image bbox reply).ctl.last_frame_ = c.last_frame_ ∧
    (init c image bbox reply).ctl.tracker_ = reply.tracker := by
  cases ht : reply.tracker with
  | none => simp [init, ht]
  | some t =>
    cases hok : reply.initOk with
    | false => simp [init, ht, hok]
    | true => simp [init, ht, hok] at h

/-- The tracking state after `reinitialize`, whatever its outcome, differs from
the one before at most in the two counters it resets. -/
theorem reinitialize_state (c : Controller) (image : Mat) (bbox : Rect2d)
    (reply : CreateReply) :
    ( reinitialize c image bbox reply).ctl.state_ = c.state_ ∨
    ( reinitialize c image bbox reply).ctl.state_ =
      { c.state_ with consecutive_low_psr_count := 0, frames_since_reinit := 0 } := by
  cases ht : reply.tracker with
  | none => left; simp [ reinitialize, ht]
  | some t =>
    cases hok : reply.initOk with
    | false => left; simp [ reinitialize, ht, hok]
    | true => right; rw [reinitialize_of_success c image bbox reply t ht hok]

/-- Only a successful `init` changes `is_initialized`. -/
theorem runOp_is_initialized (c : Controller) (op : Op)
    (h : (op.isInit && (runOp c op).ok) = false) :
    (runOp c op).ctl.state_.is_initialized = c.state_.is_initialized := by
  cases op with
  | init image bbox reply =>
    have hf : (init c image bbox reply).ok = false := by simpa [Op.isInit, runOp] using h
    simp only [runOp]
    rw [(init_of_failure c image bbox reply hf).1]
  | update image bbox upd reply =>
    simp only [runOp]
    cases hi : c.state_.is_initialized with
    | false => rw [update_of_guard c image bbox upd reply (Or.inl hi)]; exact hi
    | true =>
      cases htr : c.tracker_ with
      | none => rw [update_of_guard c image bbox upd reply (Or.inr htr)]; exact hi
      | some t0 =>
        have htr2 : c.tracker_.isSome = true := by simp [htr]
        cases hs : upd.success with
        | false => rw [update_of_failure c image bbox upd reply hi htr2 hs]; exact hi
        | true =>
          rw [update_of_success c image bbox upd reply hi htr2 hs]
          obtain ⟨f1, _⟩ := trackedState_fields c upd
          cases hsr : shouldReinitialize c.params_ (trackedState c upd) upd.rect.toRect2d with
          | false =>
            simp only [Bool.false_eq_true, if_false]
            split <;> simp [f1, hi]
          | true =>
            simp only [if_true]
            rcases reinitialize_state
              { c with tracker_ := some upd.tracker, state_ := trackedState c upd }
              image upd.rect.toRect2d reply with h2 | h2
            · rw [h2]; simp [f1, hi]
            · rw [h2]; simp [f1, hi]
  | updateParams new_params reply =>
    simp only [runOp, updateParams]
    split
    · rcases reinitialize_state { c with params_ := new_params } c.last_frame_
        c.state_.current_bbox reply with h2 | h2
      · rw [h2]
      · rw [h2]
    · rfl

/-- A default tracking state stays as it is under every call that is not a
successful `init`. -/
theorem runOp_fresh (c : Controller) (op : Op)
    (hc : c.state_ = TrackingState.fresh)
    (h : (op.isInit && (runOp c op).ok) = false) :
    (runOp c op).ctl.state_ = TrackingState.fresh := by
  cases op with
  | init image bbox reply =>
    have hf : (init c image bbox reply).ok = false := by simpa [Op.isInit, runOp] using h
    simp only [runOp]
    rw [(init_of_failure c image bbox reply hf).1, hc]
  | update image bbox upd reply =>
    simp only [runOp]
    rw [update_of_guard c image bbox upd reply (Or.inl (by rw [hc]; rfl))]
    exact hc
  | updateParams new_params reply =>
    have ht : c.state_.is_tracking = false := by rw [hc]; rfl
    simp only [runOp, updateParams, ht, Bool.and_false, Bool.false_and, Bool.false_eq_true,
      if_false]
    exact hc

/-- While no `init` succeeds, a controller that is not initialized stays so. -/
theorem afterOps_uninitialized (ops : List Op) :
    ∀ c : Controller, c.state_.is_initialized = false → noInitSucceeds c ops = true →
      (afterOps c ops).state_.is_initialized = false := by
  induction ops with
  | nil => intro c hc _; exact hc
  | cons op rest ih =>
    intro c hc h
    simp only [noInitSucceeds, Bool.and_eq_true, Bool.not_eq_true'] at h
    simp only [afterOps]
    exact ih _ (by rw [runOp_is_initialized c op h.1]; exact hc) h.2

/-- While no `init` succeeds, a default tracking state stays as it is. -/
theorem afterOps_fresh (ops : List Op) :
    ∀ c : Controller, c.state_ = TrackingState.fresh → noInitSucceeds c ops = true →
      (afterOps c ops).state_ = TrackingState.fresh := by
  induction ops with
  | nil => intro c hc _; exact hc
  | cons op rest ih =>
    intro c hc h
    simp only [noInitSucceeds, Bool.and_eq_true, Bool.not_eq_true'] at h
    simp only [afterOps]
    exact ih _ (runOp_fresh c op hc h.1) h.2

/-- C16. Update before init: on a controller reached from a newly constructed
one by any sequence of calls in which no `init` has succeeded, every `update`
call returns false, makes no call to the tracker, leaves the caller's box and
the controller unchanged; the tracking state is still the default one, with
empty histories and `frame_count`, `frames_since_reinit` and
`consecutive_low_psr_count` equal to 0. -/
theorem update_before_init (params : AdaptiveParams) (ops : List Op) (image : Mat)
    (bbox : Rect2d) (upd : UpdateReply) (reply : CreateReply)
    (h : noInitSucceeds (Controller.new params) ops = true) :
    update (afterOps (Controller.new params) ops) image bbox upd reply =
      { ok := false, bbox := bbox, ctl := afterOps (Controller.new params) ops, calls := [] } ∧
    (afterOps (Controller.new params) ops).state_ = TrackingState.fresh ∧
    (update (afterOps (Controller.new params) ops) image bbox upd reply).ctl.state_.psr_history
      = [] ∧
    (update (afterOps (Controller.new params) ops) image bbox upd reply).ctl.state_.size_history
      = [] ∧
    (update (afterOps (Controller.new params) ops) image bbox upd reply).ctl.state_.frame_count
      = 0 ∧
    (update (afterOps (Controller.new params) ops) image bbox upd
      reply).ctl.state_.frames_since_reinit = 0 ∧
    (update (afterOps (Controller.new params) ops) image bbox upd
      reply).ctl.state_.consecutive_low_psr_count = 0 := by
  have hf := afterOps_fresh ops (Controller.new params) rfl h
  have hu := update_of_guard (afterOps (Controller.new params) ops) image bbox upd reply
    (Or.inl (by rw [hf]; rfl))
  refine ⟨hu, hf, ?_, ?_, ?_, ?_, ?_⟩ <;> rw [hu] <;> simp only [hf] <;> rfl

/-- Witness for C16: after an update, a failed `init`, a parameter change and
another update on a new controller, `update` still returns false and the
tracking state is the default one. -/
theorem update_before_init_witness :
    noInitSucceeds (Controller.new AdaptiveParams.default) opsWithoutInitSuccess = true ∧
    update (afterOps (Controller.new AdaptiveParams.default) opsWithoutInitSuccess)
        ⟨[5]⟩ ⟨1, 2, 3, 4⟩ goodUpdate replySucceeds =
      { ok := false, bbox := ⟨1, 2, 3, 4⟩,
        ctl := afterOps (Controller.new AdaptiveParams.default) opsWithoutInitSuccess,
        calls := [] } ∧
    (afterOps (Controller.new AdaptiveParams.default) opsWithoutInitSuccess).state_
      = TrackingState.fresh :=
  have h := update_before_init AdaptiveParams.default opsWithoutInitSuccess ⟨[5]⟩
    ⟨1, 2, 3, 4⟩ goodUpdate replySucceeds (by decide!)
  ⟨by decide!, h.1, h.2.1⟩

/-- C17 (amended). Failed init: whenever `init` returns false, the tracking state
is left as it was. On a controller that was not initialized, it therefore stays
uninitialized, and after any further calls among which no `init` succeeds every
`update` returns false. On any controller, when `init` failed because tracker
creation failed, the controller holds no handle and the `update` calls that
follow it return false and change nothing. -/
theorem init_failure_effect (c : Controller) (image : Mat) (bbox : Rect2d)
    (reply : CreateReply) (h : (init c image bbox reply).ok = false) :
    (init c image bbox reply).ctl.state_ = c.state_ ∧
    (c.state_.is_initialized = false →
      (init c image bbox reply).ctl.state_.is_initialized = false ∧
      ∀ (ops : List Op) (image2 : Mat) (bbox2 : Rect2d) (upd : UpdateReply)
        (reply2 : CreateReply),
        noInitSucceeds (init c image bbox reply).ctl ops = true →
        update (afterOps (init c image bbox reply).ctl ops) image2 bbox2 upd reply2 =
          { ok := false, bbox := bbox2, ctl := afterOps (init c image bbox reply).ctl ops,
            calls := [] }) ∧
    (reply.tracker = none →
      (init c image bbox reply).ctl.tracker_ = none ∧
      ∀ (bbox2 : Rect2d) (inputs : List (Mat × UpdateReply × CreateReply)),
        ∀ r ∈ runUpdates (init c image bbox reply).ctl bbox2 inputs,
          r.ok = false ∧ r.ctl = (init c image bbox reply).ctl ∧ r.calls = []) := by
  obtain ⟨hst, _, htr⟩ := init_of_failure c image bbox reply h
  refine ⟨hst, ?_, ?_⟩
  · intro hu
    have hu2 : (init c image bbox reply).ctl.state_.is_initialized = false := by
      rw [hst]; exact hu
    refine ⟨hu2, ?_⟩
    intro ops image2 bbox2 upd reply2 hno
    exact update_of_guard _ image2 bbox2 upd reply2
      (Or.inl (afterOps_uninitialized ops _ hu2 hno))
  · intro hnone
    have hn : (init c image bbox reply).ctl.tracker_ = none := by rw [htr]; exact hnone
    refine ⟨hn, ?_⟩
    intro bbox2 inputs
    exact runUpdates_of_guard inputs _ bbox2 (Or.inr hn)

/-- Witness for C17: `init` on a new controller with a tracker that fails to
initialize returns false and leaves the default tracking state. -/
theorem init_failure_effect_witness :
    (init (Controller.new AdaptiveParams.default) ⟨[1]⟩ ⟨100, 100, 200, 150⟩
      replyInitFails).ok = false ∧
    (init (Controller.new AdaptiveParams.default) ⟨[1]⟩ ⟨100, 100, 200, 150⟩
      replyInitFails).ctl.state_ = (Controller.new AdaptiveParams.default).state_ :=
  ⟨by decide!,
   (init_failure_effect (Controller.new AdaptiveParams.default) ⟨[1]⟩ ⟨100, 100, 200, 150⟩
      replyInitFails (by decide!)).1⟩

/-- Counterexample to C17 as stated: on a controller that is already
initialized, an `init` whose tracker fails to initialize returns false, yet
`is_initialized` is still true afterwards. -/
theorem init_failure_stays_initialized_counterexample :
    (init controllerAfterCooldown ⟨[2]⟩ ⟨100, 100, 200, 150⟩ replyInitFails).ok = false ∧
    (init controllerAfterCooldown ⟨[2]⟩ ⟨100, 100, 200, 150⟩
      replyInitFails).ctl.state_.is_initialized = true ∧
    (init controllerAfterCooldown ⟨[2]⟩ ⟨100, 100, 200, 150⟩ replyCreateFails).ok = false ∧
    (init controllerAfterCooldown ⟨[2]⟩ ⟨100, 100, 200, 150⟩
      replyCreateFails).ctl.state_.is_initialized = true := by
  refine ⟨by decide!, by decide!, by decide!, by decide!⟩

/-- C18. Successful init postcondition: whenever `init(frame, box)` returns true,
the state has `is_initialized` and `is_tracking` true, `frame_count`,
`consecutive_low_psr_count` and `frames_since_reinit` equal to 0,
`current_bbox` and `initial_bbox` equal to the given (untruncated) box, and the
cached frame is the given frame. -/
theorem init_success_postcondition (c : Controller) (image : Mat) (bbox : Rect2d)
    (reply : CreateReply) (h : (init c image bbox reply).ok = true) :
    (init c image bbox reply).ctl.state_.is_initialized = true ∧
    (init c image bbox reply).ctl.state_.is_tracking = true ∧
    (init c image bbox reply).ctl.state_.frame_count = 0 ∧
    (init c image bbox reply).ctl.state_.consecutive_low_psr_count = 0 ∧
    (init c image bbox reply).ctl.state_.frames_since_reinit = 0 ∧
    (init c image bbox reply).ctl.state_.current_bbox = bbox ∧
    (init c image bbox reply).ctl.state_.initial_bbox = bbox ∧
    (init c image bbox reply).ctl.last_frame_ = image := by
  obtain ⟨t, ht, hok⟩ := init_ok_reply c image bbox reply h
  rw [init_of_success c image bbox reply t ht hok]
  exact ⟨rfl, rfl, rfl, rfl, rfl, rfl, rfl, rfl⟩

/-- Witness for C18: `init` with the box `(100, 100, 200, 150)` on a new
controller, the tracker being created and initialized. -/
theorem init_success_postcondition_witness :
    (init (Controller.new AdaptiveParams.default) ⟨[1]⟩ ⟨100, 100, 200, 150⟩
      replySucceeds).ok = true ∧
    (init (Controller.new AdaptiveParams.default) ⟨[1]⟩ ⟨100, 100, 200, 150⟩
      replySucceeds).ctl.state_.is_tracking = true ∧
    (init (Controller.new AdaptiveParams.default) ⟨[1]⟩ ⟨100, 100, 200, 150⟩
      replySucceeds).ctl.state_.frame_count = 0 :=
  have h := init_success_postcondition (Controller.new AdaptiveParams.default) ⟨[1]⟩
    ⟨100, 100, 200, 150⟩ replySucceeds (by decide!)
  ⟨by decide!, h.2.1, h.2.2.1⟩

/-- C19 (amended). A successful `init(frame, box)` on a controller in any prior
state sets `is_initialized` and `is_tracking`, sets `current_bbox` and
`initial_bbox` to the box and resets the three counters to 0; `psr_history`,
`size_history`, `current_psr` and `tracking_score` keep their prior values. The
resulting tracking state equals the one a newly constructed controller has
after the same successful `init` exactly when those four fields were at their
initial values (empty, empty, 0, 0) before the call. -/
theorem init_success_state (c : Controller) (image : Mat) (bbox : Rect2d)
    (reply : CreateReply) (h : (init c image bbox reply).ok = true) :
    (init c image bbox reply).ctl.state_ =
      { c.state_ with
        is_initialized := true, is_tracking := true,
        current_bbox := bbox, initial_bbox := bbox,
        frame_count := 0, consecutive_low_psr_count := 0, frames_since_reinit := 0 } ∧
    (init c image bbox reply).ctl.state_.psr_history = c.state_.psr_history ∧
    (init c image bbox reply).ctl.state_.size_history = c.state_.size_history ∧
    (init c image bbox reply).ctl.state_.current_psr = c.state_.current_psr ∧
    (init c image bbox reply).ctl.state_.tracking_score = c.state_.tracking_score ∧
    ((init c image bbox reply).ctl.state_
        = (init (Controller.new c.params_) image bbox reply).ctl.state_ ↔
      (c.state_.psr_history = [] ∧ c.state_.size_history = [] ∧
        c.state_.current_psr = 0 ∧ c.state_.tracking_score = 0)) := by
  obtain ⟨t, ht, hok⟩ := init_ok_reply c image bbox reply h
  rw [init_of_success c image bbox reply t ht hok,
    init_of_success (Controller.new c.params_) image bbox reply t ht hok]
  refine ⟨rfl, rfl, rfl, rfl, rfl, ?_⟩
  simp only [Controller.new, TrackingState.fresh, TrackingState.mk.injEq, true_and]
  constructor
  · rintro ⟨h1, h2, h3, h4⟩
    exact ⟨h3, h4, h1, h2⟩
  · rintro ⟨h1, h2, h3, h4⟩
    exact ⟨h3, h4, h1, h2⟩

/-- Witness for C19: a successful `init` on a controller that has tracked for
ten frames keeps its recorded PSR history. -/
theorem init_success_state_witness :
    (init controllerAfterCooldown ⟨[2]⟩ ⟨100, 100, 200, 150⟩ replySucceeds).ok = true ∧
    (init controllerAfterCooldown ⟨[2]⟩ ⟨100, 100, 200, 150⟩
      replySucceeds).ctl.state_.psr_history = controllerAfterCooldown.state_.psr_history :=
  ⟨by decide!,
   (init_success_state controllerAfterCooldown ⟨[2]⟩ ⟨100, 100, 200, 150⟩ replySucceeds
      (by decide!)).2.1⟩

/-- Counterexample to C19 as stated: after a successful `init` on a controller
that has tracked for ten frames, the tracking state differs from the one of a
newly constructed controller after the same `init`; the histories are not
empty. -/
theorem init_keeps_history_counterexample :
    (init controllerAfterCooldown ⟨[2]⟩ ⟨100, 100, 200, 150⟩ replySucceeds).ok = true ∧
    (init controllerAfterCooldown ⟨[2]⟩ ⟨100, 100, 200, 150⟩ replySucceeds).ctl.state_ ≠
      (init (Controller.new controllerAfterCooldown.params_) ⟨[2]⟩ ⟨100, 100, 200, 150⟩
        replySucceeds).ctl.state_ ∧
    (init controllerAfterCooldown ⟨[2]⟩ ⟨100, 100, 200, 150⟩
      replySucceeds).ctl.state_.psr_history = [1 / 8] ∧
    (init controllerAfterCooldown ⟨[2]⟩ ⟨100, 100, 200, 150⟩
      replySucceeds).ctl.state_.size_history = [⟨10, 10⟩] := by
  refine ⟨by decide!, by decide!, by decide!, by decide!⟩

/-! ## Theorems: cooldown spacing -/

/-- One `update` inside the cooldown: nothing is rebuilt, the parameters stay
and `frames_since_reinit` grows by at most one. -/
theorem update_in_cooldown (c : Controller) (image : Mat) (bbox : Rect2d) (upd : UpdateReply)
    (reply : CreateReply)
    (h : c.state_.frames_since_reinit + 1 < c.params_.reinit_cooldown_frames) :
    rebuilt (update c image bbox upd reply).calls = false ∧
    (update c image bbox upd reply).ctl.params_ = c.params_ ∧
    (update c image bbox upd reply).ctl.state_.frames_since_reinit
      ≤ c.state_.frames_since_reinit + 1 := by
  by_cases hg : c.state_.is_initialized = false ∨ c.tracker_ = none
  · rw [update_of_guard c image bbox upd reply hg]
    exact ⟨rfl, rfl, by simp⟩
  · have hinit : c.state_.is_initialized = true := by
      cases hi : c.state_.is_initialized with
      | false => exact absurd (Or.inl hi) hg
      | true => rfl
    have htr : c.tracker_.isSome = true := by
      cases ht : c.tracker_ with
      | none => exact absurd (Or.inr ht) hg
      | some _ => rfl
    cases hs : upd.success with
    | false =>
      rw [update_of_failure c image bbox upd reply hinit htr hs]
      exact ⟨rfl, rfl, le_refl _⟩
    | true =>
      obtain ⟨_, _, _, _, _, _, _, f8, _⟩ := trackedState_fields c upd
      have hgate : shouldReinitialize c.params_ (trackedState c upd) upd.rect.toRect2d
          = false := by
        simp [ shouldReinitialize, f8, h]
      rw [update_of_success c image bbox upd reply hinit htr hs]
      rw [if_neg (by simp [hgate])]
      refine ⟨rfl, rfl, ?_⟩
      show (if _ then _ else _ : TrackingState).frames_since_reinit ≤ _
      split <;> simp [f8]

/-- A run of `update` calls that ends inside the cooldown rebuilds nothing. -/
theorem runUpdates_in_cooldown (inputs : List (Mat × UpdateReply × CreateReply)) :
    ∀ (c : Controller) (bbox : Rect2d),
      c.state_.frames_since_reinit + inputs.length < c.params_.reinit_cooldown_frames →
      ∀ r ∈ runUpdates c bbox inputs, rebuilt r.calls = false := by
  induction inputs with
  | nil => intro c bbox _ r hr; simp [runUpdates] at hr
  | cons i rest ih =>
    intro c bbox h r hr
    obtain ⟨image, upd, reply⟩ := i
    simp only [List.length_cons, Nat.cast_add, Nat.cast_one] at h
    obtain ⟨h1, h2, h3⟩ := update_in_cooldown c image bbox upd reply (by omega)
    simp only [runUpdates, List.mem_cons] at hr
    rcases hr with hr | hr
    · rw [hr]; exact h1
    · exact ih _ _ (by rw [h2]; omega) r hr

/-- C15 (amended). Cooldown spacing: after a successful reinitialization, in
every run of fewer than `reinit_cooldown_frames` `update` calls that follows it
no `update` performs a reinitialization. The cooldown does not bind
`updateParams`: on the same controller, active with a cached frame, a change of
a structural field rebuilds the tracker at once. -/
theorem cooldown_spacing (c : Controller) (image : Mat) (bbox : Rect2d) (reply : CreateReply)
    (h : ( reinitialize c image bbox reply).ok = true) :
    (∀ (bbox2 : Rect2d) (inputs : List (Mat × UpdateReply × CreateReply)),
      (inputs.length : Int) < ( reinitialize c image bbox reply).ctl.params_.reinit_cooldown_frames →
      ∀ r ∈ runUpdates ( reinitialize c image bbox reply).ctl bbox2 inputs,
        rebuilt r.calls = false) ∧
    (∀ (new_params : AdaptiveParams) (reply2 : CreateReply),
      needReinit new_params ( reinitialize c image bbox reply).ctl.params_ = true →
      ( reinitialize c image bbox reply).ctl.state_.is_tracking = true →
      ( reinitialize c image bbox reply).ctl.last_frame_.empty = false →
      rebuilt (updateParams ( reinitialize c image bbox reply).ctl new_params reply2).calls
        = true) := by
  constructor
  · intro bbox2 inputs hlen r hr
    have hz : ( reinitialize c image bbox reply).ctl.state_.frames_since_reinit = 0 := by
      cases ht : reply.tracker with
      | none => simp [ reinitialize, ht] at h
      | some t =>
        cases hok : reply.initOk with
        | false => simp [ reinitialize, ht, hok] at h
        | true => rw [reinitialize_of_success c image bbox reply t ht hok]
    exact runUpdates_in_cooldown inputs _ bbox2 (by rw [hz]; omega) r hr
  · intro new_params reply2 hneed htrack hframe
    simp only [updateParams, hneed, htrack, hframe, Bool.not_false, Bool.and_self, if_true]
    exact ( reinitialize_params _ _ _ _).2

/-- Witness for C15: after a successful rebuild under the default cooldown of
ten frames, six further updates, low in quality, rebuild nothing. -/
theorem cooldown_spacing_witness :
    ( reinitialize controllerAtLimit ⟨[2]⟩ ⟨0, 0, 10, 10⟩ replySucceeds).ok = true ∧
    ∀ r ∈ runUpdates ( reinitialize controllerAtLimit ⟨[2]⟩ ⟨0, 0, 10, 10⟩ replySucceeds).ctl
        ⟨0, 0, 0, 0⟩ (List.replicate 6 lowQualityFrame),
      rebuilt r.calls = false :=
  ⟨by decide!,
   (cooldown_spacing controllerAtLimit ⟨[2]⟩ ⟨0, 0, 10, 10⟩ replySucceeds (by decide!)).1
     ⟨0, 0, 0, 0⟩ (List.replicate 6 lowQualityFrame) (by decide!)⟩

/-- Counterexample to C15 as stated: an `update` rebuilds the tracker and resets
`frames_since_reinit` to 0 under a cooldown of ten frames; an `updateParams`
that asks for another template size follows at once and rebuilds the tracker
again, no `update` call having been made in between. -/
theorem cooldown_bypass_counterexample :
    rebuilt (update controllerAtLimit ⟨[2]⟩ ⟨0, 0, 0, 0⟩ goodUpdate replySucceeds).calls = true ∧
    (update controllerAtLimit ⟨[2]⟩ ⟨0, 0, 0, 0⟩ goodUpdate replySucceeds).ok = true ∧
    (update controllerAtLimit ⟨[2]⟩ ⟨0, 0, 0, 0⟩ goodUpdate
      replySucceeds).ctl.state_.frames_since_reinit = 0 ∧
    (update controllerAtLimit ⟨[2]⟩ ⟨0, 0, 0, 0⟩ goodUpdate
      replySucceeds).ctl.params_.reinit_cooldown_frames = 10 ∧
    rebuilt (updateParams
      (update controllerAtLimit ⟨[2]⟩ ⟨0, 0, 0, 0⟩ goodUpdate replySucceeds).ctl
      paramsTemplate300 replySucceeds).calls = true ∧
    (updateParams
      (update controllerAtLimit ⟨[2]⟩ ⟨0, 0, 0, 0⟩ goodUpdate replySucceeds).ctl
      paramsTemplate300 replySucceeds).ok = true := by
  refine ⟨by decide!, by decide!, by decide!, by decide!, by decide!, by decide!⟩

/-! ## Theorems: histories of one constant size -/

/-- Pushing a size onto a history made of copies of it leaves a non-empty
history made of copies of it. -/
theorem pushBounded_replicate (n : Nat) (z : Size2d) :
    ∃ m : Nat, 0 < m ∧ pushBounded (List.replicate n z) z = List.replicate m z := by
  have happ : List.replicate n z ++ [z] = List.replicate (n + 1) z := by
    rw [List.replicate_succ']
  unfold pushBounded HISTORY_SIZE
  simp only [happ, List.length_replicate]
  by_cases h : n + 1 > 10
  · refine ⟨n, by omega, ?_⟩
    rw [if_pos h, List.tail_replicate]
    rfl
  · exact ⟨n + 1, by omega, by rw [if_neg h]⟩

/-- The average of a non-empty history made of copies of one size is that
size. -/
theorem getAverageSize_replicate (s : TrackingState) (m : Nat) (z : Size2d) (hm : 0 < m)
    (h : s.size_history = List.replicate m z) : s.getAverageSize = z := by
  have hne : s.size_history ≠ [] := by
    rw [h]
    intro hnil
    have := congrArg List.length hnil
    simp at this
    omega
  have he : s.size_history.isEmpty = false := by simpa using hne
  have hm0 : (m : ℚ) ≠ 0 := by exact_mod_cast (Nat.pos_iff_ne_zero.mp hm)
  have he2 : (List.replicate m z).isEmpty = false := by rw [← h]; exact he
  simp only [TrackingState.getAverageSize, he, he2, Bool.false_eq_true, if_false,
    foldl_size_eq_sum, zero_add, h, List.map_replicate, List.sum_replicate,
    List.length_replicate, nsmul_eq_mul]
  cases z with
  | mk zw zh =>
    simp only [Size2d.mk.injEq]
    constructor <;> field_simp

/-- With PSR monitoring off and a non-negative threshold, the policy says no
when the current area equals the non-zero area of the average size. -/
theorem shouldReinitialize_constant_size (params : AdaptiveParams) (state : TrackingState)
    (current_bbox : Rect2d)
    (hmon : params.enable_psr_monitoring = false)
    (hthr : 0 ≤ params.size_change_threshold)
    (harea : current_bbox.area = state.getAverageSize.area)
    (hpos : state.getAverageSize.area ≠ 0) :
    shouldReinitialize params state current_bbox = false := by
  have hnot : ¬ (0 : ℚ) > params.size_change_threshold := not_lt.mpr hthr
  simp only [ shouldReinitialize, hmon, harea, sub_self, abs_zero, divDouble, if_neg hpos,
    zero_div, DoubleQuot.gt, Bool.false_and, Bool.false_eq_true, if_false,
    decide_eq_true_eq, if_neg hnot]
  split <;> [rfl; (split <;> rfl)]

/-! ## Theorems: low-quality counter -/

/-- C21. Low-quality counter rule: on every successful `update` for which the
policy returns false, `consecutive_low_psr_count` becomes its previous value
plus 1 when the frame's raw PSR is strictly below `psr_reinit_threshold` and 0
otherwise (a PSR equal to the floor resets it); the new PSR and box size are
pushed onto the two histories, and `current_bbox`, `current_psr` and
`tracking_score` take the values the tracker reported. -/
theorem update_low_quality_counter (c : Controller) (image : Mat) (bbox : Rect2d)
    (upd : UpdateReply) (reply : CreateReply)
    (hinit : c.state_.is_initialized = true) (htr : c.tracker_.isSome = true)
    (hs : upd.success = true)
    (hpolicy : shouldReinitialize c.params_ (trackedState c upd) upd.rect.toRect2d = false) :
    (update c image bbox upd reply).ok = true ∧
    rebuilt (update c image bbox upd reply).calls = false ∧
    (upd.tracker.rawPSR < c.params_.psr_reinit_threshold →
      (update c image bbox upd reply).ctl.state_.consecutive_low_psr_count
        = c.state_.consecutive_low_psr_count + 1) ∧
    (c.params_.psr_reinit_threshold ≤ upd.tracker.rawPSR →
      (update c image bbox upd reply).ctl.state_.consecutive_low_psr_count = 0) ∧
    (upd.tracker.rawPSR = c.params_.psr_reinit_threshold →
      (update c image bbox upd reply).ctl.state_.consecutive_low_psr_count = 0) ∧
    (update c image bbox upd reply).ctl.state_.psr_history
      = pushBounded c.state_.psr_history upd.tracker.rawPSR ∧
    (update c image bbox upd reply).ctl.state_.size_history
      = pushBounded c.state_.size_history ⟨upd.rect.width, upd.rect.height⟩ ∧
    (update c image bbox upd reply).ctl.state_.current_bbox = upd.rect.toRect2d ∧
    (update c image bbox upd reply).ctl.state_.current_psr = upd.tracker.rawPSR ∧
    (update c image bbox upd reply).ctl.state_.tracking_score = upd.tracker.trackingScore := by
  obtain ⟨_, _, _, _, f5, _, _, _, f9⟩ := trackedState_fields c upd
  rw [update_of_success c image bbox upd reply hinit htr hs, if_neg (by simp [hpolicy])]
  refine ⟨rfl, rfl, ?_, ?_, ?_, ?_, ?_, ?_, ?_, ?_⟩
  · intro h
    show (if _ then _ else _ : TrackingState).consecutive_low_psr_count = _
    rw [if_pos (by rw [f5]; exact h)]
    show (trackedState c upd).consecutive_low_psr_count + 1 = _
    rw [f9]
  · intro h
    show (if _ then _ else _ : TrackingState).consecutive_low_psr_count = _
    rw [if_neg (by rw [f5]; exact not_lt.mpr h)]
  · intro h
    show (if _ then _ else _ : TrackingState).consecutive_low_psr_count = _
    rw [if_neg (by rw [f5]; exact not_lt.mpr (le_of_eq h.symm))]
  · show (if _ then _ else _ : TrackingState).psr_history = _
    split <;> rfl
  · show (if _ then _ else _ : TrackingState).size_history = _
    split <;> rfl
  · show (if _ then _ else _ : TrackingState).current_bbox = _
    split <;> rfl
  · show (if _ then _ else _ : TrackingState).current_psr = _
    split <;> rfl
  · show (if _ then _ else _ : TrackingState).tracking_score = _
    split <;> rfl

/-- Witness for C21: a successful frame at raw PSR `1/128`, below the floor `0.02f`,
on a controller whose counter is 0 and whose policy says no. -/
theorem update_low_quality_counter_witness :
    (update controllerAfterCooldown lowQualityFrame.1 ⟨0, 0, 0, 0⟩ lowQualityFrame.2.1
      lowQualityFrame.2.2).ok = true ∧
    (lowQualityFrame.2.1.tracker.rawPSR < controllerAfterCooldown.params_.psr_reinit_threshold →
      (update controllerAfterCooldown lowQualityFrame.1 ⟨0, 0, 0, 0⟩ lowQualityFrame.2.1
        lowQualityFrame.2.2).ctl.state_.consecutive_low_psr_count
        = controllerAfterCooldown.state_.consecutive_low_psr_count + 1) ∧
    lowQualityFrame.2.1.tracker.rawPSR < controllerAfterCooldown.params_.psr_reinit_threshold :=
  have h := update_low_quality_counter controllerAfterCooldown lowQualityFrame.1 ⟨0, 0, 0, 0⟩
    lowQualityFrame.2.1 lowQualityFrame.2.2 rfl rfl rfl (by decide!)
  ⟨h.1, h.2.2.1, by decide!⟩

/-! ## Theorems: invariants of the tracking state -/

/-- A property of the tracking state that survives the elementary state changes
of the wrapper (the assignments of a successful `init`, the counter advance of
a failed update, the recording of a tracked frame with or without the counter
increment, the counter resets) survives every public operation. -/
theorem runOp_preserves (P : TrackingState → Prop)
    (hinit : ∀ (s : TrackingState) (bbox : Rect2d), P s →
      P { s with
          is_initialized := true, is_tracking := true,
          current_bbox := bbox, initial_bbox := bbox,
          frame_count := 0, consecutive_low_psr_count := 0, frames_since_reinit := 0 })
    (hfail : ∀ s : TrackingState, P s →
      P { s with frame_count := s.frame_count + 1,
                 frames_since_reinit := s.frames_since_reinit + 1 })
    (htracked : ∀ (c : Controller) (upd : UpdateReply), P c.state_ → P (trackedState c upd))
    (hlow : ∀ (c : Controller) (upd : UpdateReply), P c.state_ →
      P { trackedState c upd with consecutive_low_psr_count :=
            (trackedState c upd).consecutive_low_psr_count + 1 })
    (hzero : ∀ s : TrackingState, P s → P { s with consecutive_low_psr_count := 0 })
    (hreset : ∀ s : TrackingState, P s →
      P { s with consecutive_low_psr_count := 0, frames_since_reinit := 0 })
    (c : Controller) (op : Op) (hc : P c.state_) : P (runOp c op).ctl.state_ := by
  have hre : ∀ (d : Controller) (image : Mat) (bbox : Rect2d) (reply : CreateReply),
      P d.state_ → P ( reinitialize d image bbox reply).ctl.state_ := by
    intro d image bbox reply hd
    rcases reinitialize_state d image bbox reply with h2 | h2
    · rw [h2]; exact hd
    · rw [h2]; exact hreset _ hd
  cases op with
  | init image bbox reply =>
    simp only [runOp]
    cases hok : (init c image bbox reply).ok with
    | false => rw [(init_of_failure c image bbox reply hok).1]; exact hc
    | true =>
      obtain ⟨t, ht, hi⟩ := init_ok_reply c image bbox reply hok
      rw [init_of_success c image bbox reply t ht hi]
      exact hinit _ bbox hc
  | update image bbox upd reply =>
    simp only [runOp]
    cases hi : c.state_.is_initialized with
    | false => rw [update_of_guard c image bbox upd reply (Or.inl hi)]; exact hc
    | true =>
      cases htr : c.tracker_ with
      | none => rw [update_of_guard c image bbox upd reply (Or.inr htr)]; exact hc
      | some t0 =>
        have htr2 : c.tracker_.isSome = true := by simp [htr]
        cases hs : upd.success with
        | false =>
          rw [update_of_failure c image bbox upd reply hi htr2 hs]
          exact hfail _ hc
        | true =>
          rw [update_of_success c image bbox upd reply hi htr2 hs]
          cases hsr : shouldReinitialize c.params_ (trackedState c upd) upd.rect.toRect2d with
          | false =>
            rw [if_neg (by simp)]
            show P (if _ then _ else _ : TrackingState)
            split
            · exact hlow c upd hc
            · exact hzero _ (htracked c upd hc)
          | true =>
            rw [if_pos rfl]
            exact hre _ _ _ _ (htracked c upd hc)
  | updateParams new_params reply =>
    simp only [runOp, updateParams]
    split
    · exact hre _ _ _ _ hc
    · exact hc

/-- A property preserved by every operation holds after every sequence of
operations. -/
theorem afterOps_preserves (P : TrackingState → Prop)
    (hstep : ∀ (c : Controller) (op : Op), P c.state_ → P (runOp c op).ctl.state_)
    (ops : List Op) : ∀ c : Controller, P c.state_ → P (afterOps c ops).state_ := by
  induction ops with
  | nil => intro c hc; exact hc
  | cons op rest ih =>
    intro c hc
    exact ih _ (hstep c op hc)

/-- C22. No terminal failed state: once `init` has succeeded, `is_initialized`
and `is_tracking` are true after every later sequence of operations, whatever
each of them returns (updates that succeed or fail, reinitializations that
succeed or fail, `updateParams`, failed or successful `init` calls). -/
theorem flags_stay_true (c : Controller) (image : Mat) (bbox : Rect2d) (reply : CreateReply)
    (ops : List Op) (h : (init c image bbox reply).ok = true) :
    (afterOps (init c image bbox reply).ctl ops).state_.is_initialized = true ∧
    (afterOps (init c image bbox reply).ctl ops).state_.is_tracking = true := by
  apply afterOps_preserves
    (fun s => s.is_initialized = true ∧ s.is_tracking = true) _ ops
  · obtain ⟨t, ht, hi⟩ := init_ok_reply c image bbox reply h
    rw [init_of_success c image bbox reply t ht hi]
    exact ⟨rfl, rfl⟩
  · intro d op hd
    apply runOp_preserves (fun s => s.is_initialized = true ∧ s.is_tracking = true) _ _ _ _ _ _
      d op hd
    · intro s b _; exact ⟨rfl, rfl⟩
    · intro s hs; exact hs
    · intro e upd he; exact he
    · intro e upd he; exact he
    · intro s hs; exact hs
    · intro s hs; exact hs

/-- Witness for C22: after a successful `init` on a new controller, a failed
tracker update, a rebuild that gets no tracker, a failed `init` and one more
update leave both flags true, while the failures were returned as false. -/
theorem flags_stay_true_witness :
    (init (Controller.new AdaptiveParams.default) ⟨[1]⟩ ⟨100, 100, 200, 150⟩
      replySucceeds).ok = true ∧
    ((afterOps (init (Controller.new AdaptiveParams.default) ⟨[1]⟩ ⟨100, 100, 200, 150⟩
        replySucceeds).ctl opsWithFailures).state_.is_initialized = true ∧
      (afterOps (init (Controller.new AdaptiveParams.default) ⟨[1]⟩ ⟨100, 100, 200, 150⟩
        replySucceeds).ctl opsWithFailures).state_.is_tracking = true) ∧
    (runOp (init (Controller.new AdaptiveParams.default) ⟨[1]⟩ ⟨100, 100, 200, 150⟩
      replySucceeds).ctl (Op.update ⟨[2]⟩ ⟨0, 0, 0, 0⟩ failedUpdate replySucceeds)).ok = false :=
  ⟨by decide!,
   flags_stay_true (Controller.new AdaptiveParams.default) ⟨[1]⟩ ⟨100, 100, 200, 150⟩
     replySucceeds opsWithFailures (by decide!),
   by decide!⟩

/-- The length of a history after one push. -/
theorem pushBounded_length {α : Type} (xs : List α) (x : α) :
    (pushBounded xs x).length
      = if xs.length + 1 > HISTORY_SIZE then xs.length else xs.length + 1 := by
  unfold pushBounded
  simp only [List.length_append, List.length_singleton]
  split <;> simp

/-- The counter invariant survives the recording of a tracked frame, with room
for one increment of the low-quality counter. -/
theorem counterInvariant_tracked (c : Controller) (upd : UpdateReply)
    (h : CounterInvariant c.state_) :
    CounterInvariant (trackedState c upd) ∧
    (trackedState c upd).consecutive_low_psr_count + 1
      ≤ (trackedState c upd).frames_since_reinit := by
  obtain ⟨h1, h2, h3, h4, h5⟩ := h
  have hp : (trackedState c upd).psr_history
      = pushBounded c.state_.psr_history upd.tracker.rawPSR := rfl
  have hs : (trackedState c upd).size_history
      = pushBounded c.state_.size_history ⟨upd.rect.toRect2d.width, upd.rect.toRect2d.height⟩ :=
    rfl
  obtain ⟨_, _, _, _, _, _, f7, f8, f9⟩ := trackedState_fields c upd
  refine ⟨⟨?_, ?_, ?_, ?_, ?_⟩, ?_⟩
  · rw [f9]; exact h1
  · rw [f9, f8]; omega
  · rw [f7, f8]; omega
  · rw [hp, hs, pushBounded_length, pushBounded_length, h4]
  · rw [hp, pushBounded_length]
    unfold HISTORY_SIZE at h5 ⊢
    split <;> omega
  · rw [f9, f8]; omega

/-- Every public operation preserves the counter invariant. -/
theorem runOp_counterInvariant (c : Controller) (op : Op) (h : CounterInvariant c.state_) :
    CounterInvariant (runOp c op).ctl.state_ := by
  apply runOp_preserves CounterInvariant _ _ _ _ _ _ c op h
  · intro s b hs
    obtain ⟨_, _, _, h4, h5⟩ := hs
    exact ⟨le_refl _, le_refl _, le_refl _, h4, h5⟩
  · intro s hs
    obtain ⟨h1, h2, h3, h4, h5⟩ := hs
    exact ⟨h1, by show s.consecutive_low_psr_count ≤ s.frames_since_reinit + 1; omega,
      by show s.frames_since_reinit + 1 ≤ s.frame_count + 1; omega, h4, h5⟩
  · intro d upd hd
    exact (counterInvariant_tracked d upd hd).1
  · intro d upd hd
    obtain ⟨⟨h1, h2, h3, h4, h5⟩, h6⟩ := counterInvariant_tracked d upd hd
    exact ⟨by show 0 ≤ (trackedState d upd).consecutive_low_psr_count + 1; omega, h6, h3, h4, h5⟩
  · intro s hs
    obtain ⟨h1, h2, h3, h4, h5⟩ := hs
    exact ⟨le_refl _, by show (0 : Int) ≤ s.frames_since_reinit; omega, h3, h4, h5⟩
  · intro s hs
    obtain ⟨h1, h2, h3, h4, h5⟩ := hs
    exact ⟨le_refl _, le_refl _, by show (0 : Int) ≤ s.frame_count; omega, h4, h5⟩

/-- C23. Counter ordering invariant: in every state reachable from a newly
constructed controller by any sequence of `init`, `update` and `updateParams`
calls (counters as unbounded integers),
`0 <= consecutive_low_psr_count <= frames_since_reinit <= frame_count`, and
`psr_history` and `size_history` have the same length, at most 10. -/
theorem counter_ordering_invariant (params : AdaptiveParams) (ops : List Op) :
    0 ≤ (afterOps (Controller.new params) ops).state_.consecutive_low_psr_count ∧
    (afterOps (Controller.new params) ops).state_.consecutive_low_psr_count
      ≤ (afterOps (Controller.new params) ops).state_.frames_since_reinit ∧
    (afterOps (Controller.new params) ops).state_.frames_since_reinit
      ≤ (afterOps (Controller.new params) ops).state_.frame_count ∧
    (afterOps (Controller.new params) ops).state_.psr_history.length
      = (afterOps (Controller.new params) ops).state_.size_history.length ∧
    (afterOps (Controller.new params) ops).state_.psr_history.length ≤ 10 := by
  have h0 : CounterInvariant (Controller.new params).state_ := by
    refine ⟨le_refl _, le_refl _, le_refl _, rfl, ?_⟩
    simp [Controller.new, TrackingState.fresh]
  exact afterOps_preserves CounterInvariant runOp_counterInvariant ops _ h0

/-! ## Theorems: automatic adjustment -/

/-- Method `reinitialize` touches neither the cached frame nor `is_tracking`. -/
theorem reinitialize_frame (c : Controller) (image : Mat) (bbox : Rect2d)
    (reply : CreateReply) :
    ( reinitialize c image bbox reply).ctl.last_frame_ = c.last_frame_ ∧
    ( reinitialize c image bbox reply).ctl.state_.is_tracking = c.state_.is_tracking := by
  cases ht : reply.tracker with
  | none => simp [ reinitialize, ht]
  | some t =>
    cases hok : reply.initOk <;> simp [ reinitialize, ht, hok]

/-- An operation given a non-empty frame keeps the cached frame of an active
controller non-empty. -/
theorem runOp_cached_frame (c : Controller) (op : Op) (hv : op.frameValid = true)
    (h : c.state_.is_tracking = true → c.last_frame_.empty = false) :
    (runOp c op).ctl.state_.is_tracking = true → (runOp c op).ctl.last_frame_.empty = false := by
  cases op with
  | init image bbox reply =>
    have himg : image.empty = false := by simpa [Op.frameValid] using hv
    simp only [runOp]
    cases hok : (init c image bbox reply).ok with
    | false =>
      obtain ⟨h1, h2, _⟩ := init_of_failure c image bbox reply hok
      rw [h1, h2]; exact h
    | true =>
      obtain ⟨t, ht, hi⟩ := init_ok_reply c image bbox reply hok
      rw [init_of_success c image bbox reply t ht hi]
      intro _; exact himg
  | update image bbox upd reply =>
    have himg : image.empty = false := by simpa [Op.frameValid] using hv
    simp only [runOp]
    cases hi : c.state_.is_initialized with
    | false => rw [update_of_guard c image bbox upd reply (Or.inl hi)]; exact h
    | true =>
      cases htr : c.tracker_ with
      | none => rw [update_of_guard c image bbox upd reply (Or.inr htr)]; exact h
      | some t0 =>
        have htr2 : c.tracker_.isSome = true := by simp [htr]
        cases hs : upd.success with
        | false =>
          rw [update_of_failure c image bbox upd reply hi htr2 hs]
          intro _; exact himg
        | true =>
          rw [update_of_success c image bbox upd reply hi htr2 hs]
          cases hsr : shouldReinitialize c.params_ (trackedState c upd) upd.rect.toRect2d with
          | false =>
            rw [if_neg (by simp)]
            intro _; exact himg
          | true =>
            rw [if_pos rfl]
            obtain ⟨g1, g2⟩ := reinitialize_frame
              { c with tracker_ := some upd.tracker, state_ := trackedState c upd }
              image upd.rect.toRect2d reply
            show ( reinitialize _ _ _ _).ctl.state_.is_tracking = true →
              ( reinitialize _ _ _ _).ctl.last_frame_.empty = false
            rw [g1, g2]
            exact h
  | updateParams new_params reply =>
    simp only [runOp, updateParams]
    split
    · obtain ⟨g1, g2⟩ := reinitialize_frame { c with params_ := new_params } c.last_frame_
        c.state_.current_bbox reply
      rw [g1, g2]
      exact h
    · exact h

/-- On a controller reached from a newly constructed one by calls that were all
given non-empty frames, being active implies having a cached frame. -/
theorem active_has_cached_frame (params : AdaptiveParams) (ops : List Op)
    (hv : ∀ op ∈ ops, op.frameValid = true)
    (hactive : (afterOps (Controller.new params) ops).state_.is_tracking = true) :
    (afterOps (Controller.new params) ops).last_frame_.empty = false := by
  have key : ∀ (l : List Op) (c : Controller), (∀ op ∈ l, op.frameValid = true) →
      (c.state_.is_tracking = true → c.last_frame_.empty = false) →
      ((afterOps c l).state_.is_tracking = true → (afterOps c l).last_frame_.empty = false) := by
    intro l
    induction l with
    | nil => intro c _ hc; exact hc
    | cons op rest ih =>
      intro c hl hc
      exact ih _ (fun x hx => hl x (by simp [hx]))
        (runOp_cached_frame c op (hl op (by simp)) hc)
  exact key ops (Controller.new params) hv (by intro h; simp [Controller.new,
    TrackingState.fresh] at h) hactive

/-- Pushing `z` onto a history that ends in `m` copies of `z`: the result ends
in at least one copy of `z`; older sizes, if there were any, are kept or lose
their head, and then the number of copies has grown by one. -/
theorem pushBounded_stale (old : List Size2d) (m : Nat) (z : Size2d) :
    ∃ (old2 : List Size2d) (m2 : Nat),
      pushBounded (old ++ List.replicate m z) z = old2 ++ List.replicate m2 z ∧
      0 < m2 ∧ (old = [] → old2 = []) ∧ (old ≠ [] → m2 = m + 1) := by
  cases old with
  | nil =>
    obtain ⟨m2, hm2, h⟩ := pushBounded_replicate m z
    exact ⟨[], m2, by simpa using h, hm2, fun _ => rfl, fun hne => absurd rfl hne⟩
  | cons a t =>
    have happ : (a :: t) ++ List.replicate m z ++ [z] = a :: (t ++ List.replicate (m + 1) z) := by
      simp [List.replicate_succ', List.append_assoc]
    unfold pushBounded
    simp only [happ]
    by_cases hlen : (a :: (t ++ List.replicate (m + 1) z)).length > HISTORY_SIZE
    · refine ⟨t, m + 1, ?_, by omega, by simp, fun _ => rfl⟩
      rw [if_pos hlen]
      rfl
    · refine ⟨a :: t, m + 1, ?_, by omega, by simp, fun _ => rfl⟩
      rw [if_neg hlen]
      rfl

/-- One frame of the constant-size scenario: the update succeeds, rebuilds
nothing, and the standing assumptions still hold. -/
theorem update_constant_size_step (w h : Int) (hw : 0 < w) (hh : 0 < h) (c : Controller)
    (bbox : Rect2d) (i : Mat × UpdateReply × CreateReply)
    (hc : ConstantSizeReady w h c) (hi : ConstantSizeInput w h i) :
    (update c i.1 bbox i.2.1 i.2.2).ok = true ∧
    rebuilt (update c i.1 bbox i.2.1 i.2.2).calls = false ∧
    ConstantSizeReady w h (update c i.1 bbox i.2.1 i.2.2).ctl := by
  obtain ⟨image, upd, reply⟩ := i
  obtain ⟨hinit, htr, hmon, hthr, hlen, old, m, hhist, hdisj⟩ := hc
  obtain ⟨hs, hrw, hrh⟩ := hi
  simp only at hs hrw hrh ⊢
  obtain ⟨f1, _, _, _, _, _, _, f8, _⟩ := trackedState_fields c upd
  have hts : (trackedState c upd).size_history
      = pushBounded c.state_.size_history ⟨(w : ℚ), (h : ℚ)⟩ := by
    simp only [trackedState, TrackingState.updateHistory, Rect.toRect2d, hrw, hrh]
  obtain ⟨old2, m2, hpush, hm2, hnil, hsucc⟩ := pushBounded_stale old m ⟨(w : ℚ), (h : ℚ)⟩
  have hhist2 : (trackedState c upd).size_history
      = old2 ++ List.replicate m2 ⟨(w : ℚ), (h : ℚ)⟩ := by
    rw [hts, hhist, hpush]
  have hlen2 : (trackedState c upd).size_history.length ≤ HISTORY_SIZE := by
    rw [hts, pushBounded_length]
    split <;> omega
  have hdisj2 : old2 = [] ∨
      ((trackedState c upd).frames_since_reinit ≤ m2 ∧
        (HISTORY_SIZE : Int) ≤ c.params_.reinit_cooldown_frames) := by
    by_cases ho : old = []
    · exact Or.inl (hnil ho)
    · rcases hdisj with hd | ⟨hd1, hd2⟩
      · exact absurd hd ho
      · refine Or.inr ⟨?_, hd2⟩
        rw [f8, hsucc ho]
        push_cast
        omega
  have hwq : (0 : ℚ) < (w : ℚ) := by exact_mod_cast hw
  have hhq : (0 : ℚ) < (h : ℚ) := by exact_mod_cast hh
  have hgate : shouldReinitialize c.params_ (trackedState c upd) upd.rect.toRect2d = false := by
    by_cases ho2 : old2 = []
    · have hrep : (trackedState c upd).size_history
          = List.replicate m2 ⟨(w : ℚ), (h : ℚ)⟩ := by
        rw [hhist2, ho2]; rfl
      have havg := getAverageSize_replicate (trackedState c upd) m2 ⟨(w : ℚ), (h : ℚ)⟩ hm2 hrep
      apply shouldReinitialize_constant_size _ _ _ hmon (by linarith)
      · rw [havg]
        simp [Rect2d.area, Size2d.area, Rect.toRect2d, hrw, hrh]
      · rw [havg]
        simp only [Size2d.area]
        exact ne_of_gt (mul_pos hwq hhq)
    · rcases hdisj2 with hd | ⟨hd1, hd2⟩
      · exact absurd hd ho2
      · have hpos : 0 < old2.length := List.length_pos.mpr ho2
        have hl : old2.length + m2 ≤ HISTORY_SIZE := by
          have := hlen2
          rw [hhist2] at this
          simpa using this
        have hlt : (trackedState c upd).frames_since_reinit
            < c.params_.reinit_cooldown_frames := by
          have h3 : (m2 : Int) < (HISTORY_SIZE : Int) := by exact_mod_cast (by omega : m2 < HISTORY_SIZE)
          omega
        simp [ shouldReinitialize, hlt]
  rw [update_of_success c image bbox upd reply hinit htr hs, if_neg (by simp [hgate])]
  have e1 : ∀ (p : Prop) [Decidable p] (a b : TrackingState),
      a.size_history = (trackedState c upd).size_history →
      b.size_history = (trackedState c upd).size_history →
      a.frames_since_reinit = (trackedState c upd).frames_since_reinit →
      b.frames_since_reinit = (trackedState c upd).frames_since_reinit →
      a.is_initialized = true → b.is_initialized = true →
      (if p then a else b).size_history = (trackedState c upd).size_history ∧
      (if p then a else b).frames_since_reinit = (trackedState c upd).frames_since_reinit ∧
      (if p then a else b).is_initialized = true := by
    intro p _ a b h1 h2 h3 h4 h5 h6
    split
    · exact ⟨h1, h3, h5⟩
    · exact ⟨h2, h4, h6⟩
  obtain ⟨g1, g2, g3⟩ := e1
    ((trackedState c upd).current_psr < c.params_.psr_reinit_threshold)
    { trackedState c upd with consecutive_low_psr_count :=
        (trackedState c upd).consecutive_low_psr_count + 1 }
    { trackedState c upd with consecutive_low_psr_count := 0 }
    rfl rfl rfl rfl (by rw [← hinit, ← f1]) (by rw [← hinit, ← f1])
  refine ⟨rfl, rfl, g3, rfl, hmon, hthr, ?_, old2, m2, ?_, ?_⟩
  · show (if _ then _ else _ : TrackingState).size_history.length ≤ HISTORY_SIZE
    rw [g1]; exact hlen2
  · show (if _ then _ else _ : TrackingState).size_history = _
    rw [g1]; exact hhist2
  · rcases hdisj2 with hd | ⟨hd1, hd2⟩
    · exact Or.inl hd
    · refine Or.inr ⟨?_, hd2⟩
      show (if _ then _ else _ : TrackingState).frames_since_reinit ≤ _
      rw [g2]; exact hd1

/-- A run of constant-size frames: every update succeeds and none rebuilds. -/
theorem runUpdates_constant_size (w h : Int) (hw : 0 < w) (hh : 0 < h)
    (inputs : List (Mat × UpdateReply × CreateReply)) :
    ∀ (c : Controller) (bbox : Rect2d), ConstantSizeReady w h c →
      (∀ i ∈ inputs, ConstantSizeInput w h i) →
      ∀ r ∈ runUpdates c bbox inputs, r.ok = true ∧ rebuilt r.calls = false := by
  induction inputs with
  | nil => intro c bbox _ _ r hr; simp [runUpdates] at hr
  | cons i rest ih =>
    intro c bbox hc hin r hr
    obtain ⟨h1, h2, h3⟩ := update_constant_size_step w h hw hh c bbox i hc (hin i (by simp))
    obtain ⟨image, upd, reply⟩ := i
    simp only [runUpdates, List.mem_cons] at hr
    rcases hr with hr | hr
    · rw [hr]; exact ⟨h1, h2⟩
    · exact ih _ _ h3 (fun x hx => hin x (by simp [hx])) r hr

/-- C20 (amended). Constant-size scenario: on any controller reached from a
newly constructed one, starting from a successful `init` made when the size
history is empty (as on a newly constructed controller) or with
`reinit_cooldown_frames` at least 10 (the history capacity), for every run of
successful `update` calls (of length 20 or any other) in which the tracker
reports boxes of one constant positive width and height, and for every
`size_change_threshold` of at least 0.30, with PSR monitoring disabled, every
update succeeds and none performs a reinitialization: the size-drift trigger
never fires. -/
theorem constant_size_run_never_rebuilds (params : AdaptiveParams) (ops : List Op)
    (image : Mat) (bbox : Rect2d) (reply : CreateReply) (w h : Int) (bbox2 : Rect2d)
    (inputs : List (Mat × UpdateReply × CreateReply))
    (hthr : 3 / 10 ≤ (afterOps (Controller.new params) ops).params_.size_change_threshold)
    (hmon : (afterOps (Controller.new params) ops).params_.enable_psr_monitoring = false)
    (hstart : (afterOps (Controller.new params) ops).state_.size_history = [] ∨
      10 ≤ (afterOps (Controller.new params) ops).params_.reinit_cooldown_frames)
    (hinit : (init (afterOps (Controller.new params) ops) image bbox reply).ok = true)
    (hw : 0 < w) (hh : 0 < h)
    (hin : ∀ i ∈ inputs, ConstantSizeInput w h i) :
    ∀ r ∈ runUpdates (init (afterOps (Controller.new params) ops) image bbox reply).ctl
        bbox2 inputs,
      r.ok = true ∧ rebuilt r.calls = false := by
  apply runUpdates_constant_size w h hw hh inputs _ bbox2 _ hin
  have hinv : CounterInvariant (afterOps (Controller.new params) ops).state_ := by
    apply afterOps_preserves CounterInvariant runOp_counterInvariant ops
    refine ⟨le_refl _, le_refl _, le_refl _, rfl, ?_⟩
    simp [Controller.new, TrackingState.fresh]
  have hlen : (afterOps (Controller.new params) ops).state_.size_history.length
      ≤ HISTORY_SIZE := by
    obtain ⟨_, _, _, h4, h5⟩ := hinv
    rw [← h4]; exact h5
  obtain ⟨t, ht, hok⟩ := init_ok_reply _ image bbox reply hinit
  rw [init_of_success _ image bbox reply t ht hok]
  have hparams : ∀ p : AdaptiveParams,
      (if p.auto_adjust_template_size then adaptTemplateSize p bbox else p).enable_psr_monitoring
        = p.enable_psr_monitoring ∧
      (if p.auto_adjust_template_size then adaptTemplateSize p bbox else p).size_change_threshold
        = p.size_change_threshold ∧
      (if p.auto_adjust_template_size then adaptTemplateSize p bbox else p).reinit_cooldown_frames
        = p.reinit_cooldown_frames := by
    intro p
    split
    · simp [adaptTemplateSize]
    · exact ⟨rfl, rfl, rfl⟩
  obtain ⟨p1, p2, p3⟩ := hparams (afterOps (Controller.new params) ops).params_
  refine ⟨rfl, rfl, ?_, ?_, hlen, (afterOps (Controller.new params) ops).state_.size_history,
    0, ?_, ?_⟩
  · show (if _ then _ else _ : AdaptiveParams).enable_psr_monitoring = false
    rw [p1]; exact hmon
  · show 3 / 10 ≤ (if _ then _ else _ : AdaptiveParams).size_change_threshold
    rw [p2]; exact hthr
  · show (afterOps (Controller.new params) ops).state_.size_history = _
    simp
  · rcases hstart with hs | hs
    · exact Or.inl hs
    · refine Or.inr ⟨le_refl _, ?_⟩
      show (HISTORY_SIZE : Int) ≤ (if _ then _ else _ : AdaptiveParams).reinit_cooldown_frames
      rw [p3]
      exact hs

/-- Witness for C20: a controller that has already tracked a `10 x 10` target,
with the default cooldown of 10 and threshold `0.3f` and PSR monitoring off, is
given a new `init` with the box `(100, 100, 200, 150)` and then twenty frames
that report a `200 x 150` box. -/
theorem constant_size_run_never_rebuilds_witness :
    ((afterOps (Controller.new paramsNoMonitoring) earlierUse).state_.size_history
        = [⟨10, 10⟩] ∧
      (init (afterOps (Controller.new paramsNoMonitoring) earlierUse) ⟨[3]⟩
        ⟨100, 100, 200, 150⟩ replySucceeds).ok = true) ∧
    ∀ r ∈ runUpdates
        (init (afterOps (Controller.new paramsNoMonitoring) earlierUse) ⟨[3]⟩
          ⟨100, 100, 200, 150⟩ replySucceeds).ctl
        ⟨0, 0, 0, 0⟩ (List.replicate 20 constantSizeFrame),
      r.ok = true ∧ rebuilt r.calls = false :=
  ⟨by decide!,
   constant_size_run_never_rebuilds paramsNoMonitoring earlierUse ⟨[3]⟩ ⟨100, 100, 200, 150⟩
     replySucceeds 200 150 ⟨0, 0, 0, 0⟩ (List.replicate 20 constantSizeFrame)
     (by decide!) (by decide!) (Or.inr (by decide!)) (by decide!) (by decide) (by decide)
     (fun i hi => by
       rw [List.eq_of_mem_replicate hi]
       unfold ConstantSizeInput
       decide!)⟩

/-- Counterexample to C20 as stated: a controller with no cooldown, threshold
`0.3f` and PSR monitoring off has tracked a `10 x 10` target for one frame; a
new `init` with the box `(100, 100, 200, 150)` succeeds and keeps that size in
the history. Of the twenty successful updates that follow, all reporting a
`200 x 150` box, the first six perform a reinitialization through the size-drift
trigger. -/
theorem constant_size_reused_controller_counterexample :
    (3 / 10 ≤ (afterOps (Controller.new paramsNoCooldown) earlierUse).params_.size_change_threshold ∧
      (afterOps (Controller.new paramsNoCooldown) earlierUse).params_.enable_psr_monitoring
        = false ∧
      (init (afterOps (Controller.new paramsNoCooldown) earlierUse) ⟨[3]⟩
        ⟨100, 100, 200, 150⟩ replySucceeds).ok = true ∧
      (init (afterOps (Controller.new paramsNoCooldown) earlierUse) ⟨[3]⟩
        ⟨100, 100, 200, 150⟩ replySucceeds).ctl.state_.size_history = [⟨10, 10⟩] ∧
      constantSizeFrame.2.1.success = true ∧
      constantSizeFrame.2.1.rect.width = 200 ∧ constantSizeFrame.2.1.rect.height = 150) ∧
    (runUpdates
        (init (afterOps (Controller.new paramsNoCooldown) earlierUse) ⟨[3]⟩
          ⟨100, 100, 200, 150⟩ replySucceeds).ctl
        ⟨0, 0, 0, 0⟩ (List.replicate 20 constantSizeFrame)).map
      (fun r => (r.ok, rebuilt r.calls)) =
      [(true, true), (true, true), (true, true), (true, true), (true, true), (true, true),
       (true, false), (true, false), (true, false), (true, false), (true, false),
       (true, false), (true, false), (true, false), (true, false), (true, false),
       (true, false), (true, false), (true, false), (true, false)] := by
  refine ⟨by decide!, by decide!⟩

end AdaptiveTracker
